import Mathlib

/-! Verification of the BaaS SMS/MMS MCP server (`src/baas_sms_mcp/server.py`).

Every tool of the server becomes a total Lean function.  The remote HTTP
collaborator and the template CDN are explicit parameters: a send tool takes
the outcome of its one possible POST (a status code with a parsed JSON body,
or a raised transport exception carrying `str(e)`), and the template tools
take a function from the fetched URL to such an outcome.  Tools that can
issue network requests also return the list of requests they issued, so
"performs no network call" is the statement that this list is empty.
Python dictionary lookups with `.get` become `Option` fields with `getD`;
a `KeyError` raised by a mandatory `[...]` lookup is converted by the tool's
own `except` handler, and is modelled on that branch directly. -/

/-! ## String helpers modelling the Python primitives used by the server -/

/-- Python `str.title()` for the strings used here: an alphabetic character
following a non-alphabetic one is uppercased, every later letter of a word is
lowercased, other characters are kept. -/
def pyTitleGo : Bool → List Char → List Char
  | _, [] => []
  | prevAlpha, c :: cs =>
    (if c.isAlpha then (if prevAlpha then c.toLower else c.toUpper) else c)
      :: pyTitleGo c.isAlpha cs

/-- Python `str.title()` on a string. -/
def pyTitle (s : String) : String :=
  ⟨pyTitleGo false s.data⟩

/-- Python `str.lower()` (for the ASCII identifiers the server lowercases). -/
def pyLower (s : String) : String :=
  ⟨s.data.map Char.toLower⟩

/-- Python `str.strip()` with no argument (for the ASCII whitespace around
the fenced code blocks the server strips). -/
def pyStrip (s : String) : String :=
  ⟨((s.data.dropWhile Char.isWhitespace).reverse.dropWhile Char.isWhitespace).reverse⟩

/-- Python `str.endswith` / suffix check, on the character lists. -/
def strEndsWith (s suffix : String) : Bool :=
  suffix.data.isSuffixOf s.data

/-- Python `str.replace` on character lists: replace every occurrence of
`pat`, scanning left to right without overlap and continuing after each
replacement.  The fuel argument only bounds the recursion: each step consumes
at least one character of the list, so fuel equal to the list's length never
runs out (the `0, l => l` line is unreachable then). -/
def replaceAllAux (pat repl : List Char) : Nat → List Char → List Char
  | _, [] => []
  | 0, l => l
  | fuel + 1, c :: cs =>
    if pat ≠ [] ∧ pat.isPrefixOf (c :: cs) then
      repl ++ replaceAllAux pat repl fuel (cs.drop (pat.length - 1))
    else
      c :: replaceAllAux pat repl fuel cs

/-- Python `s.replace(pat, repl)` (for the non-empty patterns the server uses). -/
def replaceAll (s pat repl : String) : String :=
  ⟨replaceAllAux pat.data repl.data s.data.length s.data⟩

/-- The characters of the list before the first occurrence of `pat`, or
`none` when `pat` does not occur. -/
def takeUntilSub (pat : List Char) : List Char → Option (List Char)
  | [] => none
  | c :: cs =>
    if pat.isPrefixOf (c :: cs) then some []
    else
      match takeUntilSub pat cs with
      | some r => some (c :: r)
      | none => none

/-- The capture of the leftmost match of the non-greedy regular expression
`openPat(.*?)closePat` under DOTALL (as `re.findall(..., re.DOTALL)[0]`):
the first position where `openPat` matches with `closePat` occurring later,
capturing the shortest text between them.  `openPat` is non-empty for every
pattern the server builds. -/
def findBlockAux (openPat closePat : List Char) : List Char → Option (List Char)
  | [] => none
  | c :: cs =>
    match
      (if openPat.isPrefixOf (c :: cs) then takeUntilSub closePat (cs.drop (openPat.length - 1))
       else none)
    with
    | some captured => some captured
    | none => findBlockAux openPat closePat cs

/-- Python `re.findall(f'```[language](.*?)```', text, re.DOTALL)` followed by
`code_blocks[0].strip()`: the first fenced block for the language, stripped,
or `none` when the pattern does not match.  The language is interpolated into
the pattern, so this literal search coincides with Python's `re.findall`
exactly when the language identifier has no regular-expression meaning of its
own (see `regexLiteralLang`); for an identifier with regex metacharacters
(such as "c++") Python instead raises `re.error` inside the tool's inner
`try`, landing in its fallback branch, or matches differently.  Every theorem
below therefore instantiates the extraction only at regex-literal languages. -/
def extractCodeBlock (language text : String) : Option String :=
  (findBlockAux ("```" ++ language).data "```".data text.data).map
    (fun cs => pyStrip ⟨cs⟩)

/-- A language identifier all of whose characters are alphanumeric.  Such an
identifier has no regular-expression meaning when interpolated into the
f-string pattern, so on these languages (which include every language the
server supports or lowercases to) `extractCodeBlock` is exactly Python's
fenced-block extraction. -/
def regexLiteralLang (s : String) : Bool :=
  s.data.all (fun c => c.isAlphanum)

/-- Python's `framework.lower() if framework else None`: an absent or empty
string becomes `None`, any other string is lowercased. -/
def optLower : Option String → Option String
  | some s => if s = "" then none else some (pyLower s)
  | none => none

/-! ## Data model: request and response shapes -/

/-- One recipient entry `{phone_number, member_code}`. -/
structure Recipient where
  phone_number : String
  member_code : String
deriving DecidableEq, Repr

/-- The JSON body of a send-endpoint response as the adapter reads it:
`success`, `data.group_id` (an absent `data`/`group_id` key is `none`; the
Python `result["data"]["group_id"]` lookup then raises a `KeyError` that the
tool's own handler converts to `INTERNAL_ERROR`), `message` and `error_code`
(read with `.get`, hence optional). -/
structure ApiBody where
  success : Bool
  data_group_id : Option Int
  message : Option String
  error_code : Option String
deriving DecidableEq, Repr

/-- The outcome of one remote HTTP call: a response, or a raised transport
exception carrying `str(e)`. -/
inductive HttpOutcome where
  | response (status : Nat) (body : ApiBody)
  | raised (e : String)
deriving DecidableEq, Repr

/-- The JSON payload of the one POST `send_sms` can issue; `channel_id` is
the channel discriminator (1 = SMS). -/
structure SmsPayload where
  recipients : List Recipient
  message : String
  callback_number : String
  project_id : String
  channel_id : Nat
deriving DecidableEq, Repr

/-- The JSON payload of the one POST `send_mms` can issue; `channel_id` is
the channel discriminator (3 = MMS). -/
structure MmsPayload where
  recipients : List Recipient
  message : String
  subject : String
  callback_number : String
  project_id : String
  channel_id : Nat
  img_url_list : List String
deriving DecidableEq, Repr

/-- The mapping a send tool returns: a success shape
`{success: true, group_id, message, sent_count, failed_count}` or an error
shape `{success: false, error, error_code}`. -/
inductive SendResult where
  | ok (group_id : Int) (message : String) (sent_count failed_count : Nat)
  | err (error : String) (error_code : String)
deriving DecidableEq, Repr

/-- The `success` indicator of a send result. -/
def SendResult.success : SendResult → Bool
  | .ok .. => true
  | .err .. => false

/-- The `error_code` of a send result, when it is an error shape. -/
def SendResult.errorCode : SendResult → Option String
  | .ok .. => none
  | .err _ c => some c

/-! ## The send tools -/

/-- `send_sms(recipients, message, callback_number, project_id)`.  The second
component is the list of POSTs issued (empty on the fail-fast validation
paths, exactly one otherwise). -/
def send_sms (recipients : List Recipient) (message callback_number project_id : String)
    (remote : HttpOutcome) : SendResult × List SmsPayload :=
  if project_id = "" then
    (.err "프로젝트 ID가 필요합니다" "MISSING_PROJECT_ID", [])
  else if recipients.isEmpty ∨ recipients.length > 1000 then
    (.err "수신자 수는 1명 이상 1000명 이하여야 합니다" "INVALID_RECIPIENTS_COUNT", [])
  else if message.length > 2000 then
    (.err "메시지 길이가 2000자를 초과했습니다" "MESSAGE_TOO_LONG", [])
  else
    let payload : SmsPayload := ⟨recipients, message, callback_number, project_id, 1⟩
    match remote with
    | .raised e => (.err ("SMS 전송에 실패했습니다: " ++ e) "INTERNAL_ERROR", [payload])
    | .response status body =>
      if status = 200 then
        if body.success then
          match body.data_group_id with
          | some gid =>
            (.ok gid "SMS가 성공적으로 전송되었습니다" recipients.length 0, [payload])
          | none =>
            (.err "SMS 전송에 실패했습니다: 'group_id'" "INTERNAL_ERROR", [payload])
        else
          (.err (body.message.getD "Unknown error") (body.error_code.getD "UNKNOWN_ERROR"),
            [payload])
      else
        (.err ("API 호출이 실패했습니다 (상태코드: " ++ toString status ++ ")") "API_ERROR",
          [payload])

/-- Python's `image_urls and len(image_urls) > 5`: only a present, non-empty
list with more than five entries trips the check. -/
def tooManyImages : Option (List String) → Prop
  | some l => l ≠ [] ∧ l.length > 5
  | none => False

instance : DecidablePred tooManyImages := by
  intro o
  cases o <;> simp [tooManyImages] <;> infer_instance

/-- `send_mms(recipients, message, subject, callback_number, project_id,
image_urls)`: the `send_sms` contract plus the subject-length and image-count
checks; channel discriminator 3; `img_url_list` is `image_urls or []`. -/
def send_mms (recipients : List Recipient) (message subject callback_number project_id : String)
    (image_urls : Option (List String)) (remote : HttpOutcome) :
    SendResult × List MmsPayload :=
  if project_id = "" then
    (.err "프로젝트 ID가 필요합니다" "MISSING_PROJECT_ID", [])
  else if recipients.isEmpty ∨ recipients.length > 1000 then
    (.err "수신자 수는 1명 이상 1000명 이하여야 합니다" "INVALID_RECIPIENTS_COUNT", [])
  else if message.length > 2000 then
    (.err "메시지 길이가 2000자를 초과했습니다" "MESSAGE_TOO_LONG", [])
  else if subject.length > 40 then
    (.err "제목 길이가 40자를 초과했습니다" "SUBJECT_TOO_LONG", [])
  else if tooManyImages image_urls then
    (.err "최대 5개의 이미지만 첨부 가능합니다" "TOO_MANY_IMAGES", [])
  else
    let payload : MmsPayload :=
      ⟨recipients, message, subject, callback_number, project_id, 3, image_urls.getD []⟩
    match remote with
    | .raised e => (.err ("MMS 전송에 실패했습니다: " ++ e) "INTERNAL_ERROR", [payload])
    | .response status body =>
      if status = 200 then
        if body.success then
          match body.data_group_id with
          | some gid =>
            (.ok gid "MMS가 성공적으로 전송되었습니다" recipients.length 0, [payload])
          | none =>
            (.err "MMS 전송에 실패했습니다: 'group_id'" "INTERNAL_ERROR", [payload])
        else
          (.err (body.message.getD "Unknown error") (body.error_code.getD "UNKNOWN_ERROR"),
            [payload])
      else
        (.err ("API 호출이 실패했습니다 (상태코드: " ++ toString status ++ ")") "API_ERROR",
          [payload])

/-! ## Delivery status -/

/-- One per-recipient delivery record of the status endpoint's `data` list;
every field is read with `.get`, hence optional. -/
structure DeliveryMsg where
  phone : Option String
  name : Option String
  result : Option String
  reason : Option String
deriving DecidableEq, Repr

/-- The JSON body of the status endpoint's response. -/
structure StatusBody where
  success : Bool
  data : Option (List DeliveryMsg)
  message : Option String
  error_code : Option String
deriving DecidableEq, Repr

/-- The outcome of the one GET `get_message_status` issues. -/
inductive StatusOutcome where
  | response (status : Nat) (body : StatusBody)
  | raised (e : String)
deriving DecidableEq, Repr

/-- One reshaped per-recipient entry of the returned `messages` list. -/
structure MsgView where
  phone : String
  name : String
  status : String
  reason : Option String
deriving DecidableEq, Repr

/-- The mapping `get_message_status` returns. -/
inductive StatusResult where
  | ok (group_id : Int) (status : String) (total_count success_count failed_count : Nat)
      (pending_count : Int) (messages : List MsgView)
  | err (error : String) (error_code : String)
deriving DecidableEq, Repr

/-- `success_count = sum(1 for msg in messages if msg.get("result") == "성공")`. -/
def success_count (messages : List DeliveryMsg) : Nat :=
  (messages.filter (fun m => m.result == some "성공")).length

/-- `failed_count = sum(1 for msg in messages if msg.get("result") == "실패")`. -/
def failed_count (messages : List DeliveryMsg) : Nat :=
  (messages.filter (fun m => m.result == some "실패")).length

/-- `pending_count = total_count - success_count - failed_count` (Python int
arithmetic, hence over `Int`). -/
def pending_count (messages : List DeliveryMsg) : Int :=
  (messages.length : Int) - success_count messages - failed_count messages

/-- The overall status derivation of `get_message_status`. -/
def overall_status (messages : List DeliveryMsg) : String :=
  if pending_count messages > 0 then "전송중"
  else if failed_count messages = 0 then "성공"
  else if success_count messages = 0 then "실패"
  else "부분성공"

/-- The per-recipient reshaping of the returned `messages` list. -/
def msg_view (m : DeliveryMsg) : MsgView :=
  ⟨m.phone.getD "", m.name.getD "", m.result.getD "", m.reason⟩

/-- `get_message_status(group_id)` given the outcome of its GET. -/
def get_message_status (group_id : Int) (remote : StatusOutcome) : StatusResult :=
  match remote with
  | .raised e => .err ("메시지 상태 조회에 실패했습니다: " ++ e) "INTERNAL_ERROR"
  | .response status body =>
    if status = 200 then
      if body.success then
        let messages := body.data.getD []
        .ok group_id (overall_status messages) messages.length (success_count messages)
          (failed_count messages) (pending_count messages) (messages.map msg_view)
      else
        .err (body.message.getD "메시지 상태 조회에 실패했습니다")
          (body.error_code.getD "UNKNOWN_ERROR")
    else
      .err ("API 호출이 실패했습니다 (상태코드: " ++ toString status ++ ")") "API_ERROR"

/-! ## Send history (documented stub) -/

/-- The mapping `get_send_history` returns: the placeholder success shape
(with its `data` fields inlined) or the validation error shape. -/
inductive HistoryResult where
  | ok (project_id : String) (total_count : Nat) (offset limit : Int)
      (message_type : String) (history : List Unit) (message : String)
  | err (error : String) (error_code : String)
deriving DecidableEq, Repr

/-- The `history` list of the result, when the result carries one. -/
def HistoryResult.historyList : HistoryResult → Option (List Unit)
  | .ok _ _ _ _ _ h _ => some h
  | .err .. => none

/-- `get_send_history(project_id, offset, limit, message_type)`.  The second
component counts the network calls issued: the endpoint is a documented stub
and never calls out. -/
def get_send_history (project_id : String) (offset limit : Int) (message_type : String) :
    HistoryResult × Nat :=
  if project_id = "" then
    (.err "프로젝트 ID가 필요합니다" "MISSING_PROJECT_ID", 0)
  else
    (.ok project_id 0 (if offset < 0 then 0 else offset) (if limit > 100 then 100 else limit)
      (if message_type ∈ ["SMS", "MMS", "ALL"] then message_type else "ALL") []
      "전송 기록 엔드포인트가 아직 API에 구현되지 않았습니다", 0)

/-! ## Template URL construction -/

/-- The fixed supported-language list of `get_code_template_url`. -/
def supported_languages : List String :=
  ["javascript", "python", "php", "java", "go", "csharp"]

/-- The mapping `get_code_template_url` returns (the static `cdn_info` and
`required_env_vars` constants of the success shape are not modelled; the
`installation_guide` field is the one under `configuration`). -/
inductive UrlResult where
  | ok (language : String) (framework deployment_platform : Option String)
      (template_url : String) (integration_url : Option String)
      (api_endpoint installation_guide : String) (message : String)
  | err (error : String) (supported_languages : List String) (error_code : String)
deriving DecidableEq, Repr

/-- The `template_url` of the result, when it is the success shape. -/
def UrlResult.templateUrl : UrlResult → Option String
  | .ok _ _ _ u _ _ _ _ => some u
  | .err .. => none

/-- The `installation_guide` of the result, when it is the success shape. -/
def UrlResult.installationGuide : UrlResult → Option String
  | .ok _ _ _ _ _ _ g _ => some g
  | .err .. => none

/-- `get_code_template_url(language, framework, deployment_platform)`: pure
URL construction, no collaborator parameter because the tool never calls out. -/
def get_code_template_url (language : String) (framework deployment_platform : Option String) :
    UrlResult :=
  let language := pyLower language
  let framework := optLower framework
  let platform := optLower deployment_platform
  let base_url := "https://cdn.mbaas.kr/templates/sms-mms"
  let template_path :=
    language ++ (match framework with | some f => "/" ++ f | none => "/vanilla")
  let template_url := base_url ++ "/" ++ template_path ++ ".md"
  let integration_url := platform.map (fun p => base_url ++ "/deployment/" ++ p ++ ".md")
  if language ∉ supported_languages then
    .err ("언어 '" ++ language ++ "'는 아직 지원되지 않습니다") supported_languages
      "UNSUPPORTED_LANGUAGE"
  else
    .ok language framework platform template_url integration_url "https://api.aiapp.link"
      (base_url ++ "/setup/" ++ language ++ ".md")
      (language ++ " 템플릿 URL을 제공합니다. 토큰 최적화를 위해 CDN에서 직접 다운로드하세요.")

/-! ## Embedded code-generator template strings

The module-level string constants of the three local code generators,
extracted character for character from the Python source. -/

/-- The JavaScript client template string of `generate_javascript_code`
(`base_code`), written as pre/marker/post so that containment of the
`class BaaSMessageService` definition is definitional; the concatenation is
character for character the source string. -/
def js_base_code_pre : String :=
  "/**\n * BaaS SMS/MMS Direct API Client\n * Directly calls https://api.aiapp.link without MCP\n */\n\n"

def js_base_code_post : String :=
  " \x7b\n    constructor(apiKey, projectId, baseUrl = 'https://api.aiapp.link') \x7b\n        this.apiKey = apiK"
    ++ "ey;\n        this.projectId = projectId;\n        this.baseUrl = baseUrl;\n    \x7d\n    \n    /**\n     * Sen"
    ++ "d SMS message\n     * @param \x7bArray\x7d recipients - Array of \x7bphone_number, member_code\x7d\n     * @pa"
    ++ "ram \x7bstring\x7d message - Message content (max 2000 chars)\n     * @param \x7bstring\x7d callbackNumber - S"
    ++ "ender callback number\n     * @returns \x7bPromise<Object>\x7d Response object\n     */\n    async sendSMS(rec"
    ++ "ipients, message, callbackNumber) \x7b\n        try \x7b\n            const response = await fetch(`$\x7bthis."
    ++ "baseUrl\x7d/message/sms`, \x7b\n                method: 'POST',\n                headers: \x7b\n              "
    ++ "      'X-API-KEY': this.apiKey,\n                    'Content-Type': 'application/json'\n                \x7d,"
    ++ "\n                body: JSON.stringify(\x7b\n                    recipients: recipients,\n                    "
    ++ "message: message,\n                    callback_number: callbackNumber,\n                    project_id: this."
    ++ "projectId,\n                    channel_id: 1\n                \x7d)\n            \x7d);\n            \n      "
    ++ "      const result = await response.json();\n            \n            if (response.ok && result.success) \x7b"
    ++ "\n                return \x7b\n                    success: true,\n                    groupId: result.data.gr"
    ++ "oup_id,\n                    message: 'SMS sent successfully'\n                \x7d;\n            \x7d else "
    ++ "\x7b\n                return \x7b\n                    success: false,\n                    error: result.mess"
    ++ "age || 'Send failed',\n                    errorCode: result.error_code\n                \x7d;\n            "
    ++ "\x7d\n        \x7d catch (error) \x7b\n            return \x7b\n                success: false,\n             "
    ++ "   error: `Network error: $\x7berror.message\x7d`\n            \x7d;\n        \x7d\n    \x7d\n    \n    /**\n "
    ++ "    * Send MMS message with images\n     * @param \x7bArray\x7d recipients - Array of \x7bphone_number, member"
    ++ "_code\x7d\n     * @param \x7bstring\x7d message - Message content\n     * @param \x7bstring\x7d subject - MMS "
    ++ "subject (max 40 chars)\n     * @param \x7bstring\x7d callbackNumber - Sender callback number\n     * @param "
    ++ "\x7bArray\x7d imageUrls - Array of image URLs (max 5)\n     * @returns \x7bPromise<Object>\x7d Response object"
    ++ "\n     */\n    async sendMMS(recipients, message, subject, callbackNumber, imageUrls = []) \x7b\n        try "
    ++ "\x7b\n            const response = await fetch(`$\x7bthis.baseUrl\x7d/message/mms`, \x7b\n                meth"
    ++ "od: 'POST',\n                headers: \x7b\n                    'X-API-KEY': this.apiKey,\n                   "
    ++ " 'Content-Type': 'application/json'\n                \x7d,\n                body: JSON.stringify(\x7b\n       "
    ++ "             recipients: recipients,\n                    message: message,\n                    subject: subj"
    ++ "ect,\n                    callback_number: callbackNumber,\n                    project_id: this.projectId,\n "
    ++ "                   channel_id: 3,\n                    img_url_list: imageUrls\n                \x7d)\n       "
    ++ "     \x7d);\n            \n            const result = await response.json();\n            \n            if (re"
    ++ "sponse.ok && result.success) \x7b\n                return \x7b\n                    success: true,\n          "
    ++ "          groupId: result.data.group_id,\n                    message: 'MMS sent successfully'\n              "
    ++ "  \x7d;\n            \x7d else \x7b\n                return \x7b\n                    success: false,\n       "
    ++ "             error: result.message || 'Send failed',\n                    errorCode: result.error_code\n      "
    ++ "          \x7d;\n            \x7d\n        \x7d catch (error) \x7b\n            return \x7b\n                s"
    ++ "uccess: false,\n                error: `Network error: $\x7berror.message\x7d`\n            \x7d;\n        "
    ++ "\x7d\n    \x7d\n    \n    /**\n     * Check message delivery status\n     * @param \x7bnumber\x7d groupId - Me"
    ++ "ssage group ID\n     * @returns \x7bPromise<Object>\x7d Status information\n     */\n    async getMessageStatu"
    ++ "s(groupId) \x7b\n        try \x7b\n            const response = await fetch(\n                `$\x7bthis.baseU"
    ++ "rl\x7d/message/send_history/sms/$\x7bgroupId\x7d/messages`,\n                \x7b\n                    method:"
    ++ " 'GET',\n                    headers: \x7b\n                        'X-API-KEY': this.apiKey,\n               "
    ++ "         'Content-Type': 'application/json'\n                    \x7d\n                \x7d\n            );\n "
    ++ "           \n            const result = await response.json();\n            \n            if (response.ok && r"
    ++ "esult.success) \x7b\n                const messages = result.data || [];\n                const totalCount = m"
    ++ "essages.length;\n                const successCount = messages.filter(msg => msg.result === '성공').length;\n   "
    ++ "             const failedCount = messages.filter(msg => msg.result === '실패').length;\n                const pe"
    ++ "ndingCount = totalCount - successCount - failedCount;\n                \n                let status = '전송중';\n"
    ++ "                if (pendingCount === 0) \x7b\n                    status = failedCount === 0 ? '성공' : \n      "
    ++ "                      (successCount === 0 ? '실패' : '부분성공');\n                \x7d\n                \n         "
    ++ "       return \x7b\n                    groupId: groupId,\n                    status: status,\n              "
    ++ "      totalCount: totalCount,\n                    successCount: successCount,\n                    failedCoun"
    ++ "t: failedCount,\n                    pendingCount: pendingCount,\n                    messages: messages.map(m"
    ++ "sg => (\x7b\n                        phone: msg.phone,\n                        name: msg.name,\n             "
    ++ "           status: msg.result,\n                        reason: msg.reason\n                    \x7d))\n      "
    ++ "          \x7d;\n            \x7d else \x7b\n                return \x7b\n                    success: false,\n"
    ++ "                    error: result.message || 'Status check failed'\n                \x7d;\n            \x7d\n "
    ++ "       \x7d catch (error) \x7b\n            return \x7b\n                success: false,\n                erro"
    ++ "r: `Network error: $\x7berror.message\x7d`\n            \x7d;\n        \x7d\n    \x7d\n\x7d"

def js_base_code : String :=
  js_base_code_pre ++ "class BaaSMessageService" ++ js_base_code_post

/-- The `react` framework addition of `generate_javascript_code`. -/
def js_react_addition : String :=
  "\n\n/**\n * React Hook for BaaS SMS service\n */\nimport \x7b useState, useCallback \x7d from 'react';\n\nexpo"
    ++ "rt function useBaaSMessageService(apiKey, projectId) \x7b\n    const [loading, setLoading] = useState(false);\n"
    ++ "    const [error, setError] = useState(null);\n    \n    const service = new BaaSMessageService(apiKey, projec"
    ++ "tId);\n    \n    const sendSMS = useCallback(async (recipients, message, callbackNumber) => \x7b\n        setL"
    ++ "oading(true);\n        setError(null);\n        \n        try \x7b\n            const result = await service.s"
    ++ "endSMS(recipients, message, callbackNumber);\n            return result;\n        \x7d catch (err) \x7b\n     "
    ++ "       setError(err.message);\n            throw err;\n        \x7d finally \x7b\n            setLoading(false"
    ++ ");\n        \x7d\n    \x7d, [service]);\n    \n    const sendMMS = useCallback(async (recipients, message, sub"
    ++ "ject, callbackNumber, imageUrls) => \x7b\n        setLoading(true);\n        setError(null);\n        \n      "
    ++ "  try \x7b\n            const result = await service.sendMMS(recipients, message, subject, callbackNumber, ima"
    ++ "geUrls);\n            return result;\n        \x7d catch (err) \x7b\n            setError(err.message);\n     "
    ++ "       throw err;\n        \x7d finally \x7b\n            setLoading(false);\n        \x7d\n    \x7d, [service"
    ++ "]);\n    \n    return \x7b\n        sendSMS,\n        sendMMS,\n        getMessageStatus: service.getMessageSt"
    ++ "atus.bind(service),\n        loading,\n        error\n    \x7d;\n\x7d"

/-- The `vue` framework addition of `generate_javascript_code`. -/
def js_vue_addition : String :=
  "\n\n/**\n * Vue 3 Composition API for BaaS SMS service\n */\nimport \x7b ref, reactive \x7d from 'vue';\n\nexp"
    ++ "ort function useBaaSMessageService(apiKey, projectId) \x7b\n    const loading = ref(false);\n    const error ="
    ++ " ref(null);\n    \n    const service = new BaaSMessageService(apiKey, projectId);\n    \n    const sendSMS = a"
    ++ "sync (recipients, message, callbackNumber) => \x7b\n        loading.value = true;\n        error.value = null;"
    ++ "\n        \n        try \x7b\n            const result = await service.sendSMS(recipients, message, callbackNu"
    ++ "mber);\n            return result;\n        \x7d catch (err) \x7b\n            error.value = err.message;\n   "
    ++ "         throw err;\n        \x7d finally \x7b\n            loading.value = false;\n        \x7d\n    \x7d;\n "
    ++ "   \n    const sendMMS = async (recipients, message, subject, callbackNumber, imageUrls) => \x7b\n        load"
    ++ "ing.value = true;\n        error.value = null;\n        \n        try \x7b\n            const result = await s"
    ++ "ervice.sendMMS(recipients, message, subject, callbackNumber, imageUrls);\n            return result;\n        "
    ++ "\x7d catch (err) \x7b\n            error.value = err.message;\n            throw err;\n        \x7d finally "
    ++ "\x7b\n            loading.value = false;\n        \x7d\n    \x7d;\n    \n    return \x7b\n        sendSMS,\n  "
    ++ "      sendMMS,\n        getMessageStatus: service.getMessageStatus.bind(service),\n        loading,\n        e"
    ++ "rror\n    \x7d;\n\x7d"

/-- The usage-examples addition of `generate_javascript_code`. -/
def js_usage_examples : String :=
  "\n\n// Usage Examples\n\n// Example 1: Basic SMS sending\nconst messageService = new BaaSMessageService('your-"
    ++ "api-key', 'your-project-id');\n\nconst recipients = [\n    \x7b phone_number: \"010-1234-5678\", member_code: "
    ++ "\"user_001\" \x7d\n];\n\n// Send SMS\nmessageService.sendSMS(\n    recipients,\n    \"안녕하세요! 인증번호는 123456입니다.\""
    ++ ",\n    \"02-1234-5678\"\n).then(result => \x7b\n    console.log('SMS Result:', result);\n    if (result.succes"
    ++ "s) \x7b\n        // Check status\n        return messageService.getMessageStatus(result.groupId);\n    \x7d\n"
    ++ "\x7d).then(status => \x7b\n    console.log('Status:', status);\n\x7d);\n\n// Example 2: MMS with images\nmessa"
    ++ "geService.sendMMS(\n    recipients,\n    \"신상품 출시 안내드립니다!\",\n    \"신상품 알림\",\n    \"02-1234-5678\",\n    [\"h"
    ++ "ttps://example.com/product.jpg\"]\n).then(result => \x7b\n    console.log('MMS Result:', result);\n\x7d);\n\n/"
    ++ "/ Example 3: Environment-based configuration\nconst apiKey = process.env.BAAS_API_KEY || 'your-api-key';\ncons"
    ++ "t projectId = process.env.BAAS_PROJECT_ID || 'your-project-id';\nconst service = new BaaSMessageService(apiKey"
    ++ ", projectId);"

/-- The unconditional Node.js/ES6 export suffix of `generate_javascript_code`. -/
def js_export_suffix : String :=
  "\n\n// Node.js export\nif (typeof module !== 'undefined' && module.exports) \x7b\n    module.exports = \x7b Ba"
    ++ "aSMessageService \x7d;\n\x7d\n\n// ES6 export\nexport \x7b BaaSMessageService \x7d;"

/-- The Python client template string of `generate_python_code`
(`base_code`), split around the `class BaaSMessageService` marker. -/
def python_base_code_pre : String :=
  "\"\"\"\nBaaS SMS/MMS Direct API Client\nDirectly calls https://api.aiapp.link without MCP\n\"\"\"\n\nimport re"
    ++ "quests\nimport json\nfrom typing import List, Dict, Optional, Union\n\n"

def python_base_code_post : String :=
  ":\n    def __init__(self, api_key: str, project_id: str, base_url: str = 'https://api.aiapp.link'):\n        s"
    ++ "elf.api_key = api_key\n        self.project_id = project_id\n        self.base_url = base_url\n        \n    d"
    ++ "ef send_sms(self, recipients: List[Dict], message: str, callback_number: str) -> Dict:\n        \"\"\"\n      "
    ++ "  Send SMS message\n        \n        Args:\n            recipients: List of \x7bphone_number, member_code\x7d"
    ++ "\n            message: Message content (max 2000 chars)\n            callback_number: Sender callback number\n"
    ++ "            \n        Returns:\n            Dict: Response object\n        \"\"\"\n        try:\n            h"
    ++ "eaders = \x7b\n                'X-API-KEY': self.api_key,\n                'Content-Type': 'application/json'\n"
    ++ "            \x7d\n            \n            payload = \x7b\n                'recipients': recipients,\n       "
    ++ "         'message': message,\n                'callback_number': callback_number,\n                'project_id"
    ++ "': self.project_id,\n                'channel_id': 1\n            \x7d\n            \n            response = r"
    ++ "equests.post(\n                f'\x7bself.base_url\x7d/message/sms',\n                headers=headers,\n      "
    ++ "          json=payload,\n                timeout=30\n            )\n            \n            result = respons"
    ++ "e.json()\n            \n            if response.status_code == 200 and result.get('success'):\n               "
    ++ " return \x7b\n                    'success': True,\n                    'group_id': result['data']['group_id']"
    ++ ",\n                    'message': 'SMS sent successfully'\n                \x7d\n            else:\n          "
    ++ "      return \x7b\n                    'success': False,\n                    'error': result.get('message', '"
    ++ "Send failed'),\n                    'error_code': result.get('error_code')\n                \x7d\n            "
    ++ "    \n        except requests.exceptions.RequestException as e:\n            return \x7b\n                'suc"
    ++ "cess': False,\n                'error': f'Network error: \x7bstr(e)\x7d'\n            \x7d\n    \n    def send"
    ++ "_mms(self, recipients: List[Dict], message: str, subject: str, \n                callback_number: str, image_u"
    ++ "rls: Optional[List[str]] = None) -> Dict:\n        \"\"\"\n        Send MMS message with images\n        \n   "
    ++ "     Args:\n            recipients: List of \x7bphone_number, member_code\x7d\n            message: Message co"
    ++ "ntent\n            subject: MMS subject (max 40 chars)\n            callback_number: Sender callback number\n "
    ++ "           image_urls: List of image URLs (max 5)\n            \n        Returns:\n            Dict: Response "
    ++ "object\n        \"\"\"\n        try:\n            headers = \x7b\n                'X-API-KEY': self.api_key,\n"
    ++ "                'Content-Type': 'application/json'\n            \x7d\n            \n            payload = \x7b"
    ++ "\n                'recipients': recipients,\n                'message': message,\n                'subject': s"
    ++ "ubject,\n                'callback_number': callback_number,\n                'project_id': self.project_id,\n"
    ++ "                'channel_id': 3,\n                'img_url_list': image_urls or []\n            \x7d\n        "
    ++ "    \n            response = requests.post(\n                f'\x7bself.base_url\x7d/message/mms',\n          "
    ++ "      headers=headers,\n                json=payload,\n                timeout=30\n            )\n            "
    ++ "\n            result = response.json()\n            \n            if response.status_code == 200 and result.ge"
    ++ "t('success'):\n                return \x7b\n                    'success': True,\n                    'group_i"
    ++ "d': result['data']['group_id'],\n                    'message': 'MMS sent successfully'\n                \x7d\n"
    ++ "            else:\n                return \x7b\n                    'success': False,\n                    'er"
    ++ "ror': result.get('message', 'Send failed'),\n                    'error_code': result.get('error_code')\n     "
    ++ "           \x7d\n                \n        except requests.exceptions.RequestException as e:\n            retu"
    ++ "rn \x7b\n                'success': False,\n                'error': f'Network error: \x7bstr(e)\x7d'\n       "
    ++ "     \x7d\n    \n    def get_message_status(self, group_id: int) -> Dict:\n        \"\"\"\n        Check messa"
    ++ "ge delivery status\n        \n        Args:\n            group_id: Message group ID\n            \n        Ret"
    ++ "urns:\n            Dict: Status information\n        \"\"\"\n        try:\n            headers = \x7b\n       "
    ++ "         'X-API-KEY': self.api_key,\n                'Content-Type': 'application/json'\n            \x7d\n   "
    ++ "         \n            response = requests.get(\n                f'\x7bself.base_url\x7d/message/send_history/"
    ++ "sms/\x7bgroup_id\x7d/messages',\n                headers=headers,\n                timeout=30\n            )\n"
    ++ "            \n            result = response.json()\n            \n            if response.status_code == 200 a"
    ++ "nd result.get('success'):\n                messages = result.get('data', [])\n                total_count = le"
    ++ "n(messages)\n                success_count = sum(1 for msg in messages if msg.get('result') == '성공')\n        "
    ++ "        failed_count = sum(1 for msg in messages if msg.get('result') == '실패')\n                pending_count "
    ++ "= total_count - success_count - failed_count\n                \n                if pending_count > 0:\n       "
    ++ "             status = '전송중'\n                elif failed_count == 0:\n                    status = '성공'\n     "
    ++ "           else:\n                    status = '실패' if success_count == 0 else '부분성공'\n                \n     "
    ++ "           return \x7b\n                    'group_id': group_id,\n                    'status': status,\n    "
    ++ "                'total_count': total_count,\n                    'success_count': success_count,\n            "
    ++ "        'failed_count': failed_count,\n                    'pending_count': pending_count,\n                  "
    ++ "  'messages': [\n                        \x7b\n                            'phone': msg.get('phone', ''),\n   "
    ++ "                         'name': msg.get('name', ''),\n                            'status': msg.get('result',"
    ++ " ''),\n                            'reason': msg.get('reason')\n                        \x7d\n                "
    ++ "        for msg in messages\n                    ]\n                \x7d\n            else:\n                r"
    ++ "eturn \x7b\n                    'success': False,\n                    'error': result.get('message', 'Status "
    ++ "check failed')\n                \x7d\n                \n        except requests.exceptions.RequestException as"
    ++ " e:\n            return \x7b\n                'success': False,\n                'error': f'Network error: "
    ++ "\x7bstr(e)\x7d'\n            \x7d"

def python_base_code : String :=
  python_base_code_pre ++ "class BaaSMessageService" ++ python_base_code_post

/-- The `django` framework addition of `generate_python_code`. -/
def python_django_addition : String :=
  "\n\n# Django integration\nfrom django.conf import settings\nfrom django.core.cache import cache\n\nclass Djang"
    ++ "oBaaSMessageService(BaaSMessageService):\n    def __init__(self, project_id: str = None):\n        api_key = g"
    ++ "etattr(settings, 'BAAS_API_KEY', None)\n        project_id = project_id or getattr(settings, 'BAAS_PROJECT_ID'"
    ++ ", None)\n        \n        if not api_key:\n            raise ValueError(\"BAAS_API_KEY must be set in Django "
    ++ "settings\")\n        if not project_id:\n            raise ValueError(\"BAAS_PROJECT_ID must be provided or se"
    ++ "t in Django settings\")\n            \n        super().__init__(api_key, project_id)\n    \n    def send_sms_c"
    ++ "ached(self, recipients: List[Dict], message: str, callback_number: str, cache_timeout: int = 300) -> Dict:\n  "
    ++ "      \"\"\"Send SMS with caching for duplicate prevention\"\"\"\n        cache_key = f\"baas_sms_\x7bhash(str"
    ++ "(recipients))\x7d\x7bhash(message)\x7d\"\n        \n        cached_result = cache.get(cache_key)\n        if c"
    ++ "ached_result:\n            return cached_result\n            \n        result = self.send_sms(recipients, mess"
    ++ "age, callback_number)\n        \n        if result.get('success'):\n            cache.set(cache_key, result, c"
    ++ "ache_timeout)\n            \n        return result"

/-- The `fastapi` framework addition of `generate_python_code`. -/
def python_fastapi_addition : String :=
  "\n\n# FastAPI integration\nfrom fastapi import HTTPException, Depends\nfrom pydantic import BaseModel\nfrom ty"
    ++ "ping import List\n\nclass SMSRequest(BaseModel):\n    recipients: List[Dict[str, str]]\n    message: str\n    "
    ++ "callback_number: str\n\nclass MMSRequest(BaseModel):\n    recipients: List[Dict[str, str]]\n    message: str\n"
    ++ "    subject: str\n    callback_number: str\n    image_urls: Optional[List[str]] = []\n\ndef get_baas_service()"
    ++ ":\n    \"\"\"FastAPI dependency for BaaS service\"\"\"\n    import os\n    api_key = os.getenv('BAAS_API_KEY')"
    ++ "\n    project_id = os.getenv('BAAS_PROJECT_ID')\n    \n    if not api_key or not project_id:\n        raise HT"
    ++ "TPException(status_code=500, detail=\"BaaS configuration missing\")\n        \n    return BaaSMessageService(a"
    ++ "pi_key, project_id)\n\n# FastAPI route examples\nasync def send_sms_endpoint(request: SMSRequest, service: Baa"
    ++ "SMessageService = Depends(get_baas_service)):\n    result = service.send_sms(request.recipients, request.messa"
    ++ "ge, request.callback_number)\n    \n    if not result.get('success'):\n        raise HTTPException(status_code"
    ++ "=400, detail=result.get('error'))\n        \n    return result"

/-- The usage-examples addition of `generate_python_code`. -/
def python_usage_examples : String :=
  "\n\n# Usage Examples\nif __name__ == \"__main__\":\n    import os\n    \n    # Configuration from environment "
    ++ "variables\n    api_key = os.getenv('BAAS_API_KEY', 'your-api-key')\n    project_id = os.getenv('BAAS_PROJECT_I"
    ++ "D', 'your-project-id')\n    \n    # Create service instance\n    service = BaaSMessageService(api_key, project"
    ++ "_id)\n    \n    # Example 1: Send SMS\n    recipients = [\n        \x7b\"phone_number\": \"010-1234-5678\", \""
    ++ "member_code\": \"user_001\"\x7d\n    ]\n    \n    sms_result = service.send_sms(\n        recipients,\n       "
    ++ " \"안녕하세요! 인증번호는 123456입니다.\",\n        \"02-1234-5678\"\n    )\n    print(\"SMS Result:\", sms_result)\n    \n"
    ++ "    # Example 2: Send MMS\n    if sms_result.get('success'):\n        mms_result = service.send_mms(\n        "
    ++ "    recipients,\n            \"이미지가 포함된 MMS입니다.\",\n            \"MMS 테스트\",\n            \"02-1234-5678\",\n "
    ++ "           [\"https://example.com/image.jpg\"]\n        )\n        print(\"MMS Result:\", mms_result)\n       "
    ++ " \n        # Example 3: Check status\n        if mms_result.get('success'):\n            status = service.get_"
    ++ "message_status(mms_result['group_id'])\n            print(\"Message Status:\", status)"

/-- The PHP client template string of `generate_php_code` (`base_code`),
split around the `class BaaSMessageService` marker. -/
def php_base_code_pre : String :=
  "<?php\n/**\n * BaaS SMS/MMS Direct API Client\n * Directly calls https://api.aiapp.link without MCP\n */\n\n"

def php_base_code_post : String :=
  " \x7b\n    private $apiKey;\n    private $projectId;\n    private $baseUrl;\n    \n    public function __const"
    ++ "ruct($apiKey, $projectId, $baseUrl = 'https://api.aiapp.link') \x7b\n        $this->apiKey = $apiKey;\n       "
    ++ " $this->projectId = $projectId;\n        $this->baseUrl = $baseUrl;\n    \x7d\n    \n    /**\n     * Send SMS "
    ++ "message\n     * @param array $recipients Array of ['phone_number' => '', 'member_code' => '']\n     * @param s"
    ++ "tring $message Message content (max 2000 chars)\n     * @param string $callbackNumber Sender callback number\n"
    ++ "     * @return array Response array\n     */\n    public function sendSMS($recipients, $message, $callbackNumb"
    ++ "er) \x7b\n        $payload = [\n            'recipients' => $recipients,\n            'message' => $message,\n"
    ++ "            'callback_number' => $callbackNumber,\n            'project_id' => $this->projectId,\n            "
    ++ "'channel_id' => 1\n        ];\n        \n        return $this->makeRequest('/message/sms', $payload);\n    "
    ++ "\x7d\n    \n    /**\n     * Send MMS message with images\n     * @param array $recipients Array of recipients\n"
    ++ "     * @param string $message Message content\n     * @param string $subject MMS subject (max 40 chars)\n     "
    ++ "* @param string $callbackNumber Sender callback number\n     * @param array $imageUrls Array of image URLs (ma"
    ++ "x 5)\n     * @return array Response array\n     */\n    public function sendMMS($recipients, $message, $subjec"
    ++ "t, $callbackNumber, $imageUrls = []) \x7b\n        $payload = [\n            'recipients' => $recipients,\n   "
    ++ "         'message' => $message,\n            'subject' => $subject,\n            'callback_number' => $callbac"
    ++ "kNumber,\n            'project_id' => $this->projectId,\n            'channel_id' => 3,\n            'img_url_"
    ++ "list' => $imageUrls\n        ];\n        \n        return $this->makeRequest('/message/mms', $payload);\n    "
    ++ "\x7d\n    \n    /**\n     * Check message delivery status\n     * @param int $groupId Message group ID\n     *"
    ++ " @return array Status information\n     */\n    public function getMessageStatus($groupId) \x7b\n        $url "
    ++ "= \"/message/send_history/sms/\x7b$groupId\x7d/messages\";\n        return $this->makeRequest($url, null, 'GET"
    ++ "');\n    \x7d\n    \n    /**\n     * Make HTTP request to BaaS API\n     * @param string $endpoint API endpoin"
    ++ "t\n     * @param array|null $payload Request payload\n     * @param string $method HTTP method\n     * @return"
    ++ " array Response array\n     */\n    private function makeRequest($endpoint, $payload = null, $method = 'POST')"
    ++ " \x7b\n        $headers = [\n            'X-API-KEY: ' . $this->apiKey,\n            'Content-Type: applicatio"
    ++ "n/json'\n        ];\n        \n        $ch = curl_init();\n        curl_setopt($ch, CURLOPT_URL, $this->baseUr"
    ++ "l . $endpoint);\n        curl_setopt($ch, CURLOPT_HTTPHEADER, $headers);\n        curl_setopt($ch, CURLOPT_RET"
    ++ "URNTRANSFER, true);\n        curl_setopt($ch, CURLOPT_TIMEOUT, 30);\n        \n        if ($method === 'POST')"
    ++ " \x7b\n            curl_setopt($ch, CURLOPT_POST, true);\n            if ($payload) \x7b\n                curl"
    ++ "_setopt($ch, CURLOPT_POSTFIELDS, json_encode($payload));\n            \x7d\n        \x7d\n        \n        $r"
    ++ "esponse = curl_exec($ch);\n        $httpCode = curl_getinfo($ch, CURLINFO_HTTP_CODE);\n        $error = curl_e"
    ++ "rror($ch);\n        curl_close($ch);\n        \n        if ($response === false || !empty($error)) \x7b\n     "
    ++ "       return [\n                'success' => false,\n                'error' => 'cURL error: ' . $error\n    "
    ++ "        ];\n        \x7d\n        \n        $result = json_decode($response, true);\n        \n        if ($ht"
    ++ "tpCode === 200 && isset($result['success']) && $result['success']) \x7b\n            return [\n               "
    ++ " 'success' => true,\n                'group_id' => $result['data']['group_id'] ?? null,\n                'mess"
    ++ "age' => 'Request successful'\n            ];\n        \x7d else \x7b\n            return [\n                's"
    ++ "uccess' => false,\n                'error' => $result['message'] ?? 'Request failed',\n                'error_"
    ++ "code' => $result['error_code'] ?? null\n            ];\n        \x7d\n    \x7d\n\x7d"

def php_base_code : String :=
  php_base_code_pre ++ "class BaaSMessageService" ++ php_base_code_post

/-- The `laravel` framework addition of `generate_php_code`. -/
def php_laravel_addition : String :=
  "\n\n/**\n * Laravel Service Provider integration\n */\nnamespace App\\Services;\n\nuse Illuminate\\Support\\Fa"
    ++ "cades\\Config;\nuse Illuminate\\Support\\Facades\\Cache;\n\nclass LaravelBaaSMessageService extends BaaSMessag"
    ++ "eService \x7b\n    public function __construct($projectId = null) \x7b\n        $apiKey = Config::get('service"
    ++ "s.baas.api_key');\n        $projectId = $projectId ?: Config::get('services.baas.project_id');\n        \n    "
    ++ "    if (!$apiKey || !$projectId) \x7b\n            throw new \\Exception('BaaS configuration missing in config"
    ++ "/services.php');\n        \x7d\n        \n        parent::__construct($apiKey, $projectId);\n    \x7d\n    \n "
    ++ "   /**\n     * Send SMS with Laravel caching\n     */\n    public function sendSMSCached($recipients, $message"
    ++ ", $callbackNumber, $cacheMinutes = 5) \x7b\n        $cacheKey = 'baas_sms_' . md5(serialize($recipients) . $me"
    ++ "ssage);\n        \n        return Cache::remember($cacheKey, $cacheMinutes, function() use ($recipients, $mess"
    ++ "age, $callbackNumber) \x7b\n            return $this->sendSMS($recipients, $message, $callbackNumber);\n      "
    ++ "  \x7d);\n    \x7d\n\x7d\n\n// Add to config/services.php:\n/*\n'baas' => [\n    'api_key' => env('BAAS_API_KE"
    ++ "Y'),\n    'project_id' => env('BAAS_PROJECT_ID'),\n],\n*/"

/-- The usage-examples addition of `generate_php_code`. -/
def php_usage_examples : String :=
  "\n\n// Usage Examples\n\n// Basic usage\n$apiKey = $_ENV['BAAS_API_KEY'] ?? 'your-api-key';\n$projectId = $_EN"
    ++ "V['BAAS_PROJECT_ID'] ?? 'your-project-id';\n\n$service = new BaaSMessageService($apiKey, $projectId);\n\n// Ex"
    ++ "ample 1: Send SMS\n$recipients = [\n    ['phone_number' => '010-1234-5678', 'member_code' => 'user_001']\n];\n"
    ++ "\n$smsResult = $service->sendSMS(\n    $recipients,\n    '안녕하세요! 인증번호는 123456입니다.',\n    '02-1234-5678'\n);\n\n"
    ++ "echo \"SMS Result: \" . json_encode($smsResult) . \"\\n\";\n\n// Example 2: Send MMS\nif ($smsResult['success'"
    ++ "]) \x7b\n    $mmsResult = $service->sendMMS(\n        $recipients,\n        '이미지가 포함된 MMS입니다.',\n        'MMS "
    ++ "테스트',\n        '02-1234-5678',\n        ['https://example.com/image.jpg']\n    );\n    \n    echo \"MMS Result"
    ++ ": \" . json_encode($mmsResult) . \"\\n\";\n    \n    // Example 3: Check status\n    if ($mmsResult['success']"
    ++ " && isset($mmsResult['group_id'])) \x7b\n        $status = $service->getMessageStatus($mmsResult['group_id']);"
    ++ "\n        echo \"Status: \" . json_encode($status) . \"\\n\";\n    \x7d\n\x7d\n\n?>"

/-- The locally generated JavaScript project helpers appended by
`create_message_service_template` when the helpers CDN fetch raises and the
language is `javascript` (the Python source's `project_helpers` f-string). -/
def js_project_helpers (company_name project_id default_callback : String) : String :=
  "\n// "
    ++ company_name
    ++ " Project-Specific Helpers\nconst PROJECT_CONFIG = \x7b\n    PROJECT_ID: '"
    ++ project_id
    ++ "',\n    DEFAULT_CALLBACK: '"
    ++ default_callback
    ++ "',\n    COMPANY_NAME: '"
    ++ company_name
    ++ "'\n\x7d;\n\n// Pre-configured service instance\nconst messageService = new BaaSMessageService(\n    process.en"
    ++ "v.BAAS_API_KEY || 'your-api-key',\n    PROJECT_CONFIG.PROJECT_ID\n);\n\n// Helper functions for common use cas"
    ++ "es\nasync function sendVerificationSMS(phoneNumber, code, memberCode) \x7b\n    return await messageService.se"
    ++ "ndSMS(\n        [\x7b phone_number: phoneNumber, member_code: memberCode \x7d],\n        `["
    ++ company_name
    ++ "] 인증번호: $\x7bcode\x7d`,\n        PROJECT_CONFIG.DEFAULT_CALLBACK\n    );\n\x7d\n\nasync function sendOrderConf"
    ++ "irmation(phoneNumber, orderNumber, memberCode) \x7b\n    return await messageService.sendSMS(\n        [\x7b p"
    ++ "hone_number: phoneNumber, member_code: memberCode \x7d],\n        `["
    ++ company_name
    ++ "] 주문이 완료되었습니다. 주문번호: $\x7borderNumber\x7d`,\n        PROJECT_CONFIG.DEFAULT_CALLBACK\n    );\n\x7d"

/-! ## The local code generators -/

/-- `generate_javascript_code(framework, include_examples)`: the base client
string, the `react`/`vue` addition, the usage examples, then the export
suffix, appended in the source's order. -/
def generate_javascript_code (framework : Option String) (include_examples : Bool) : String :=
  js_base_code
    ++ (if framework = some "react" then js_react_addition
        else if framework = some "vue" then js_vue_addition
        else "")
    ++ (if include_examples then js_usage_examples else "")
    ++ js_export_suffix

/-- `generate_python_code(framework, include_examples)`. -/
def generate_python_code (framework : Option String) (include_examples : Bool) : String :=
  python_base_code
    ++ (if framework = some "django" then python_django_addition
        else if framework = some "fastapi" then python_fastapi_addition
        else "")
    ++ (if include_examples then python_usage_examples else "")

/-- `generate_php_code(framework, include_examples)`. -/
def generate_php_code (framework : Option String) (include_examples : Bool) : String :=
  php_base_code
    ++ (if framework = some "laravel" then php_laravel_addition else "")
    ++ (if include_examples then php_usage_examples else "")

/-! ## CDN-backed code generation tools -/

/-- The outcome of one CDN GET: a response with its status and text, or a
raised exception carrying `str(e)`. -/
inductive CdnOutcome where
  | response (status : Nat) (text : String)
  | raised (e : String)
deriving DecidableEq, Repr

/-- The mapping `generate_direct_api_code` returns (the static per-language
`configuration` instructions and the constant `api_endpoint` field of the
success shape are not modelled).  The error shape's `supported_languages`
list is present for `TEMPLATE_UNAVAILABLE` and absent for
`GENERATION_FAILED`. -/
inductive GenResult where
  | ok (language : String) (framework : Option String)
      (code filename description source template_url message : String)
  | err (error : String) (supported_languages : Option (List String)) (error_code : String)
deriving DecidableEq, Repr

/-- The `success` indicator of a generation result. -/
def GenResult.success : GenResult → Bool
  | .ok .. => true
  | .err .. => false

/-- The `code` field of a generation result, when it is the success shape. -/
def GenResult.codeField : GenResult → Option String
  | .ok _ _ code _ _ _ _ _ => some code
  | .err .. => none

/-- The `source` field of a generation result, when it is the success shape. -/
def GenResult.sourceField : GenResult → Option String
  | .ok _ _ _ _ _ source _ _ => some source
  | .err .. => none

/-- The local-generation dispatch both fallback branches of
`generate_direct_api_code` share: the three locally supported languages (and
their short aliases), `none` for every other language. -/
def local_generation (language : String) (framework : Option String)
    (include_examples : Bool) : Option String :=
  if language = "javascript" ∨ language = "js" then
    some (generate_javascript_code framework include_examples)
  else if language = "python" ∨ language = "py" then
    some (generate_python_code framework include_examples)
  else if language = "php" then
    some (generate_php_code framework include_examples)
  else none

/-- The `extensions` table: `extensions.get(language, language)`. -/
def extFor (language : String) : String :=
  if language = "javascript" ∨ language = "js" then "js"
  else if language = "python" ∨ language = "py" then "py"
  else if language = "php" then "php"
  else language

/-- `generate_direct_api_code(language, framework, include_examples)` given
the CDN's behaviour as a function from the fetched URL to its outcome.
On HTTP 200 the code is the first matching fenced block (stripped) or, when
no block matches, the entire fetched text (the extraction is exact for
regex-literal language identifiers, see `extractCodeBlock`); on a non-200
status or a raised fetch the tool falls back to local generation, and a
language outside the three locally supported ones yields
`TEMPLATE_UNAVAILABLE` (non-200) or `GENERATION_FAILED` (raised). -/
def generate_direct_api_code (language : String) (framework : Option String)
    (include_examples : Bool) (cdn : String → CdnOutcome) : GenResult :=
  let language := pyLower language
  let framework := optLower framework
  let base_url := "https://cdn.baas-templates.com/sms-mms"
  let template_path :=
    language ++ (match framework with | some f => "/" ++ f | none => "/vanilla")
  let template_url := base_url ++ "/" ++ template_path ++ ".md"
  let fetched : Except GenResult (String × Bool) :=
    match cdn template_url with
    | .response status text =>
      if status = 200 then
        match extractCodeBlock language text with
        | some block => .ok (block, true)
        | none => .ok (text, true)
      else
        match local_generation language framework include_examples with
        | some code => .ok (code, false)
        | none =>
          .error (.err
            ("CDN에서 템플릿을 가져올 수 없고, 언어 '" ++ language ++ "'는 로컬 생성을 지원하지 않습니다")
            (some ["javascript", "python", "php"]) "TEMPLATE_UNAVAILABLE")
    | .raised e =>
      match local_generation language framework include_examples with
      | some code => .ok (code, false)
      | none => .error (.err ("CDN 오류 및 로컬 생성 불가: " ++ e) none "GENERATION_FAILED")
  match fetched with
  | .error r => r
  | .ok (code, fromCdn) =>
    .ok language framework code ("baas-sms-service." ++ extFor language)
      (pyTitle language ++ " BaaS SMS service for direct API calls")
      (if fromCdn then "CDN template" else "Local generation")
      template_url
      (pyTitle language ++ " 코드가 성공적으로 생성되었습니다 (소스: "
        ++ (if fromCdn then "CDN" else "로컬") ++ ")")

/-! ## Project-customised service template -/

/-- The `project_config` dictionary, restricted to the three keys the tool
reads (each with `.get` and a placeholder default). -/
structure ProjectConfig where
  project_id : Option String
  default_callback : Option String
  company_name : Option String
deriving DecidableEq, Repr

/-- The mapping `create_message_service_template` returns: its success shape,
or an error shape (a generator failure is passed through unchanged, carrying
the generator's fields). -/
inductive CreateResult where
  | ok (project_config : ProjectConfig) (language : String) (features : List String)
      (code filename description source message : String)
  | err (error : String) (supported_languages : Option (List String)) (error_code : String)
deriving DecidableEq, Repr

/-- The `code` field of a template result, when it is the success shape. -/
def CreateResult.codeField : CreateResult → Option String
  | .ok _ _ _ code _ _ _ _ => some code
  | .err .. => none

/-- The three literal placeholder replacements applied to the generated base
code, in the source's order. -/
def customize_code (code project_id default_callback company_name : String) : String :=
  replaceAll (replaceAll (replaceAll code "your-project-id" project_id)
    "02-1234-5678" default_callback) "Your Company" company_name

/-- The three template-variable substitutions applied to a fetched helpers
template, in the source's order. -/
def substitute_helpers (t company_name project_id default_callback : String) : String :=
  replaceAll (replaceAll (replaceAll t "\x7b\x7bcompany_name\x7d\x7d" company_name)
    "\x7b\x7bproject_id\x7d\x7d" project_id) "\x7b\x7bdefault_callback\x7d\x7d" default_callback

/-- `create_message_service_template(project_config, language, features)`
given the CDN's behaviour (used both by the inner `generate_direct_api_code`
call and the helpers fetch).  When the helpers fetch returns 200 the
substituted helpers are appended after a blank line; a non-200 status appends
nothing; a raised fetch appends the local JavaScript helpers when the
language is `javascript` and nothing otherwise. -/
def create_message_service_template (project_config : ProjectConfig) (language : String)
    (features : Option (List String)) (cdn : String → CdnOutcome) : CreateResult :=
  let features := features.getD ["sms", "mms", "status_check"]
  let project_id := project_config.project_id.getD "your-project-id"
  let default_callback := project_config.default_callback.getD "02-1234-5678"
  let company_name := project_config.company_name.getD "Your Company"
  match generate_direct_api_code language none true cdn with
  | .err e sup c => .err e sup c
  | .ok _ _ baseCode _ _ _ _ _ =>
    let code := customize_code baseCode project_id default_callback company_name
    let helpers_url :=
      "https://cdn.baas-templates.com/sms-mms/helpers/" ++ language ++ "-project.md"
    let code :=
      match cdn helpers_url with
      | .response status helpers_template =>
        if status = 200 then
          code ++ "\n\n"
            ++ substitute_helpers helpers_template company_name project_id default_callback
        else code
      | .raised _ =>
        if language = "javascript" then
          code ++ js_project_helpers company_name project_id default_callback
        else code
    .ok project_config language features code
      (replaceAll (pyLower company_name) " " "_" ++ "_message_service." ++ language)
      (company_name ++ " 전용 메시지 서비스 템플릿")
      "CDN template + project customization"
      "프로젝트별 맞춤 코드가 생성되었습니다 (CDN 최적화)"

/-! ## Helper lemmas -/

/-- Two filters by mutually exclusive predicates together keep at most the
whole list: every element lands in at most one of the two buckets. -/
theorem length_filter_add_length_filter_le {α : Type} (p q : α → Bool)
    (h : ∀ x, p x = true → q x = false) (l : List α) :
    (l.filter p).length + (l.filter q).length ≤ l.length := by
  induction l with
  | nil => simp
  | cons a t ih =>
    by_cases hp : p a = true
    · have hq := h a hp
      simp only [List.filter_cons, hp, hq, if_true, if_false, List.length_cons,
        Bool.false_eq_true]
      omega
    · rcases hq : q a with _ | _ <;>
        simp only [List.filter_cons, hp, hq, if_true, if_false, List.length_cons,
          Bool.false_eq_true] <;> omega

/-- String append is associative (via the underlying character lists). -/
theorem strAppendAssoc (a b c : String) : a ++ b ++ c = a ++ (b ++ c) := by
  apply String.ext
  simp [String.data_append, List.append_assoc]

/-! ## The claims, stated from the claim text -/

/-- Success count exactly as claim C1 words it: the number of records whose
result label equals "성공". -/
def claim_success_count (records : List DeliveryMsg) : Nat :=
  (records.filter (fun r => r.result == some "성공")).length

/-- Failed count as claim C1 words it: the number of records whose result
label equals "실패". -/
def claim_failed_count (records : List DeliveryMsg) : Nat :=
  (records.filter (fun r => r.result == some "실패")).length

/-- Pending count as claim C1 words it: total minus success minus failed. -/
def claim_pending_count (records : List DeliveryMsg) : Int :=
  (records.length : Int) - claim_success_count records - claim_failed_count records

/-- The overall status in the strict priority order of claim C1: "전송중"
when pending > 0 (pending dominates), else "성공" when failed = 0, else
"실패" when success = 0, else "부분성공". -/
def claim_overall_status (records : List DeliveryMsg) : String :=
  if claim_pending_count records > 0 then "전송중"
  else if claim_failed_count records = 0 then "성공"
  else if claim_success_count records = 0 then "실패"
  else "부분성공"

/-- C1: for every list of delivery records, `get_message_status` computes
success as the count of records labelled "성공", failed as the count labelled
"실패", pending as total minus success minus failed, and derives the overall
status in the strict priority order "전송중" if pending > 0, else "성공" if
failed = 0, else "실패" if success = 0, else "부분성공"; the spec's four
aggregation examples follow, the last showing that a pending record dominates
a success record. -/
theorem get_message_status_aggregation (group_id : Int) (records : List DeliveryMsg)
    (m ec : Option String) :
    get_message_status group_id (.response 200 ⟨true, some records, m, ec⟩)
      = .ok group_id (claim_overall_status records) records.length
          (claim_success_count records) (claim_failed_count records)
          (claim_pending_count records) (records.map msg_view)
    ∧ overall_status [⟨none, none, some "성공", none⟩, ⟨none, none, some "실패", none⟩]
        = "부분성공"
    ∧ overall_status [⟨none, none, some "성공", none⟩, ⟨none, none, some "성공", none⟩]
        = "성공"
    ∧ overall_status [⟨none, none, some "실패", none⟩, ⟨none, none, some "실패", none⟩]
        = "실패"
    ∧ overall_status [⟨none, none, some "성공", none⟩, ⟨none, none, some "전송중", none⟩]
        = "전송중" := by
  refine ⟨rfl, by decide, by decide, by decide, by decide⟩

/-- C10: the counts computed by `get_message_status` partition the record
list: pending is never negative, success + failed + pending equals the total,
success and failed together never exceed the total (every record lands in
exactly one bucket), and on the empty record list the tool returns
total 0, all three counts 0 and overall status "성공". -/
theorem get_message_status_counts_partition (records : List DeliveryMsg) (group_id : Int) :
    0 ≤ pending_count records
    ∧ (success_count records : Int) + failed_count records + pending_count records
        = (records.length : Int)
    ∧ success_count records + failed_count records ≤ records.length
    ∧ get_message_status group_id (.response 200 ⟨true, some [], none, none⟩)
        = .ok group_id "성공" 0 0 0 0 [] := by
  have hdisj : ∀ m : DeliveryMsg,
      (m.result == some "성공") = true → (m.result == some "실패") = false := by
    intro m h
    rw [beq_iff_eq] at h
    rw [h]
    decide
  have key := length_filter_add_length_filter_le _ _ hdisj records
  have key' : success_count records + failed_count records ≤ records.length := key
  refine ⟨?_, ?_, key', rfl⟩
  · unfold pending_count
    omega
  · unfold pending_count
    omega

/-- C2: with a recipient list of length 1..1000, a message of at most 2000
characters and a non-empty project id, `send_sms` issues exactly one POST
whose payload carries channel discriminator 1 (whatever the remote does); on
HTTP 200 with the application success flag it returns the remote
`data.group_id` with `sent_count = len(recipients)` and `failed_count = 0`;
on HTTP 200 with application failure it surfaces the remote message and
error code verbatim; on a non-200 status it returns `API_ERROR` with the
status code in the message. -/
theorem send_sms_remote_contract (recipients : List Recipient)
    (message callback_number project_id : String)
    (h1 : 1 ≤ recipients.length) (h2 : recipients.length ≤ 1000)
    (h3 : message.length ≤ 2000) (h4 : project_id ≠ "") :
    (∀ remote, (send_sms recipients message callback_number project_id remote).2
        = [⟨recipients, message, callback_number, project_id, 1⟩])
    ∧ (∀ (body : ApiBody) (gid : Int), body.success = true → body.data_group_id = some gid →
        (send_sms recipients message callback_number project_id (.response 200 body)).1
          = .ok gid "SMS가 성공적으로 전송되었습니다" recipients.length 0)
    ∧ (∀ (body : ApiBody) (em ec : String), body.success = false →
        body.message = some em → body.error_code = some ec →
        (send_sms recipients message callback_number project_id (.response 200 body)).1
          = .err em ec)
    ∧ (∀ (status : Nat) (body : ApiBody), status ≠ 200 →
        (send_sms recipients message callback_number project_id (.response status body)).1
          = .err ("API 호출이 실패했습니다 (상태코드: " ++ toString status ++ ")") "API_ERROR") := by
  have h2' : ¬(recipients.isEmpty = true ∨ recipients.length > 1000) := by
    simp only [List.isEmpty_iff_length_eq_zero, not_or, not_lt]
    omega
  have h3' : ¬(message.length > 2000) := by omega
  refine ⟨?_, ?_, ?_, ?_⟩
  · intro remote
    unfold send_sms
    rw [if_neg h4, if_neg h2', if_neg h3']
    rcases remote with ⟨status, body⟩ | e
    · by_cases hs : status = 200
      · rcases hg : body.data_group_id with _ | gid <;> rcases hb : body.success <;>
          simp [hs, hb, hg]
      · simp [hs]
    · rfl
  · intro body gid hb hg
    unfold send_sms
    rw [if_neg h4, if_neg h2', if_neg h3']
    simp [hb, hg]
  · intro body em ec hb hm he
    unfold send_sms
    rw [if_neg h4, if_neg h2', if_neg h3']
    simp [hb, hm, he]
  · intro status body hs
    unfold send_sms
    rw [if_neg h4, if_neg h2', if_neg h3']
    simp [hs]

/-- Witness for C2 at a concrete input. -/
theorem send_sms_remote_contract_witness :
    (send_sms [⟨"010-1234-5678", "user_001"⟩] "hello" "02-0000-0000" "proj"
        (.response 200 ⟨true, some 77, none, none⟩)).1
      = .ok 77 "SMS가 성공적으로 전송되었습니다" 1 0
    ∧ (send_sms [⟨"010-1234-5678", "user_001"⟩] "hello" "02-0000-0000" "proj"
        (.response 200 ⟨true, some 77, none, none⟩)).2
      = [⟨[⟨"010-1234-5678", "user_001"⟩], "hello", "02-0000-0000", "proj", 1⟩] :=
  ⟨(send_sms_remote_contract [⟨"010-1234-5678", "user_001"⟩] "hello" "02-0000-0000" "proj"
      (by decide) (by decide) (by decide) (by decide)).2.1
      ⟨true, some 77, none, none⟩ 77 rfl rfl,
   (send_sms_remote_contract [⟨"010-1234-5678", "user_001"⟩] "hello" "02-0000-0000" "proj"
      (by decide) (by decide) (by decide) (by decide)).1
      (.response 200 ⟨true, some 77, none, none⟩)⟩

/-- C3: `send_sms` fails fast with no network call: `MISSING_PROJECT_ID` on
an empty project id (checked first), `INVALID_RECIPIENTS_COUNT` on an empty
or over-1000 recipient list, `MESSAGE_TOO_LONG` on a message over 2000
characters; every such result has `success = false` and an empty request
list. -/
theorem send_sms_fail_fast (recipients : List Recipient)
    (message callback_number project_id : String) (remote : HttpOutcome) :
    (project_id = "" →
      send_sms recipients message callback_number project_id remote
        = (.err "프로젝트 ID가 필요합니다" "MISSING_PROJECT_ID", []))
    ∧ (project_id ≠ "" → (recipients = [] ∨ recipients.length > 1000) →
      send_sms recipients message callback_number project_id remote
        = (.err "수신자 수는 1명 이상 1000명 이하여야 합니다" "INVALID_RECIPIENTS_COUNT", []))
    ∧ (project_id ≠ "" → 1 ≤ recipients.length → recipients.length ≤ 1000 →
       message.length > 2000 →
      send_sms recipients message callback_number project_id remote
        = (.err "메시지 길이가 2000자를 초과했습니다" "MESSAGE_TOO_LONG", []))
    ∧ (∀ e c, (SendResult.err e c).success = false) := by
  refine ⟨?_, ?_, ?_, fun e c => rfl⟩
  · intro h
    unfold send_sms
    rw [if_pos h]
  · intro h hr
    have hcond : (recipients.isEmpty = true ∨ recipients.length > 1000) := by
      rcases hr with hr | hr
      · left; rw [hr]; rfl
      · right; exact hr
    unfold send_sms
    rw [if_neg h, if_pos hcond]
  · intro h ha hb hm
    have h2' : ¬(recipients.isEmpty = true ∨ recipients.length > 1000) := by
      simp only [List.isEmpty_iff_length_eq_zero, not_or, not_lt]
      omega
    unfold send_sms
    rw [if_neg h, if_neg h2', if_pos hm]

/-- Witness for C3 at concrete inputs: each of the three fail-fast paths. -/
theorem send_sms_fail_fast_witness :
    send_sms [] "m" "c" "" (.raised "boom")
      = (.err "프로젝트 ID가 필요합니다" "MISSING_PROJECT_ID", [])
    ∧ send_sms [] "m" "c" "p" (.raised "boom")
      = (.err "수신자 수는 1명 이상 1000명 이하여야 합니다" "INVALID_RECIPIENTS_COUNT", [])
    ∧ send_sms [⟨"010", "u"⟩] (String.mk (List.replicate 2001 'a')) "c" "p" (.raised "boom")
      = (.err "메시지 길이가 2000자를 초과했습니다" "MESSAGE_TOO_LONG", []) :=
  ⟨(send_sms_fail_fast [] "m" "c" "" (.raised "boom")).1 rfl,
   (send_sms_fail_fast [] "m" "c" "p" (.raised "boom")).2.1 (by decide) (Or.inl rfl),
   (send_sms_fail_fast [⟨"010", "u"⟩] (String.mk (List.replicate 2001 'a')) "c" "p"
      (.raised "boom")).2.2.1 (by decide) (by decide) (by decide)
      (by
        have h : (String.mk (List.replicate 2001 'a')).length = 2001 :=
          List.length_replicate 2001 'a'
        omega)⟩

/-- C4: `send_mms` applies the `send_sms` contract plus: a subject longer
than 40 characters returns `SUBJECT_TOO_LONG` (and, whatever the other
arguments, never issues a network call); with a subject of at most 40 (in
particular exactly 40) and an acceptable image list it proceeds, issuing
exactly one POST whose payload carries channel discriminator 3; more than 5
image URLs return `TOO_MANY_IMAGES` with no network call; an absent
`image_urls` posts an empty image URL list. -/
theorem send_mms_validation_contract (recipients : List Recipient)
    (message subject callback_number project_id : String)
    (image_urls : Option (List String)) (remote : HttpOutcome)
    (h1 : 1 ≤ recipients.length) (h2 : recipients.length ≤ 1000)
    (h3 : message.length ≤ 2000) (h4 : project_id ≠ "") :
    (subject.length > 40 →
      send_mms recipients message subject callback_number project_id image_urls remote
        = (.err "제목 길이가 40자를 초과했습니다" "SUBJECT_TOO_LONG", []))
    ∧ (∀ (r : List Recipient) (m s cb pid : String) (urls : Option (List String))
        (rm : HttpOutcome), s.length > 40 → (send_mms r m s cb pid urls rm).2 = [])
    ∧ (subject.length ≤ 40 → ∀ urls : List String, urls.length > 5 →
        send_mms recipients message subject callback_number project_id (some urls) remote
          = (.err "최대 5개의 이미지만 첨부 가능합니다" "TOO_MANY_IMAGES", []))
    ∧ (subject.length ≤ 40 → ¬tooManyImages image_urls →
        (send_mms recipients message subject callback_number project_id image_urls remote).2
          = [⟨recipients, message, subject, callback_number, project_id, 3,
              image_urls.getD []⟩])
    ∧ (subject.length ≤ 40 →
        (send_mms recipients message subject callback_number project_id none remote).2
          = [⟨recipients, message, subject, callback_number, project_id, 3, []⟩]) := by
  have h2' : ¬(recipients.isEmpty = true ∨ recipients.length > 1000) := by
    simp only [List.isEmpty_iff_length_eq_zero, not_or, not_lt]
    omega
  have h3' : ¬(message.length > 2000) := by omega
  have main : ∀ (urls : Option (List String)), subject.length ≤ 40 → ¬tooManyImages urls →
      (send_mms recipients message subject callback_number project_id urls remote).2
        = [⟨recipients, message, subject, callback_number, project_id, 3, urls.getD []⟩] := by
    intro urls hs hi
    unfold send_mms
    rw [if_neg h4, if_neg h2', if_neg h3', if_neg (by omega : ¬subject.length > 40),
      if_neg hi]
    rcases remote with ⟨status, body⟩ | e
    · by_cases hst : status = 200
      · rcases hg : body.data_group_id with _ | gid <;> rcases hb : body.success <;>
          simp [hst, hb, hg]
      · simp [hst]
    · rfl
  refine ⟨?_, ?_, ?_, fun hs hi => main image_urls hs hi,
    fun hs => main none hs (by simp [tooManyImages])⟩
  · intro hsub
    unfold send_mms
    rw [if_neg h4, if_neg h2', if_neg h3', if_pos hsub]
  · intro r m s cb pid urls rm hs
    unfold send_mms
    split_ifs <;> rfl
  · intro hs urls hu
    have hpos : tooManyImages (some urls) := by
      refine ⟨fun hnil => ?_, hu⟩
      subst hnil
      simp at hu
    unfold send_mms
    rw [if_neg h4, if_neg h2', if_neg h3', if_neg (by omega : ¬subject.length > 40),
      if_pos hpos]

/-- Witness for C4: a 41-character subject fails with no call, a 40-character
subject proceeds with one channel-3 POST carrying an empty image list. -/
theorem send_mms_validation_contract_witness :
    send_mms [⟨"010", "u"⟩] "m" (String.mk (List.replicate 41 'A')) "c" "p" none (.raised "x")
      = (.err "제목 길이가 40자를 초과했습니다" "SUBJECT_TOO_LONG", [])
    ∧ (send_mms [⟨"010", "u"⟩] "m" (String.mk (List.replicate 40 'A')) "c" "p" none
        (.raised "x")).2
      = [⟨[⟨"010", "u"⟩], "m", String.mk (List.replicate 40 'A'), "c", "p", 3, []⟩]
    ∧ send_mms [⟨"010", "u"⟩] "m" "s" "c" "p" (some ["1", "2", "3", "4", "5", "6"])
        (.raised "x")
      = (.err "최대 5개의 이미지만 첨부 가능합니다" "TOO_MANY_IMAGES", []) :=
  ⟨(send_mms_validation_contract [⟨"010", "u"⟩] "m" (String.mk (List.replicate 41 'A'))
      "c" "p" none (.raised "x") (by decide) (by decide) (by decide) (by decide)).1
      (by
        have h : (String.mk (List.replicate 41 'A')).length = 41 :=
          List.length_replicate 41 'A'
        omega),
   (send_mms_validation_contract [⟨"010", "u"⟩] "m" (String.mk (List.replicate 40 'A'))
      "c" "p" none (.raised "x") (by decide) (by decide) (by decide) (by decide)).2.2.2.2
      (by
        have h : (String.mk (List.replicate 40 'A')).length = 40 :=
          List.length_replicate 40 'A'
        omega),
   (send_mms_validation_contract [⟨"010", "u"⟩] "m" "s" "c" "p"
      (some ["1", "2", "3", "4", "5", "6"]) (.raised "x")
      (by decide) (by decide) (by decide) (by decide)).2.2.1
      (by decide) ["1", "2", "3", "4", "5", "6"] (by decide)⟩

/-- C6: with validated inputs, a raised transport exception never crosses a
tool's boundary: `send_sms`, `send_mms` and `get_message_status` each convert
it into a well-formed `{success: false, error, error_code: INTERNAL_ERROR}`
mapping whose error text carries `str(e)`. -/
theorem tools_convert_faults (recipients : List Recipient)
    (message subject callback_number project_id : String)
    (image_urls : Option (List String)) (group_id : Int) (e : String)
    (h1 : 1 ≤ recipients.length) (h2 : recipients.length ≤ 1000)
    (h3 : message.length ≤ 2000) (h4 : project_id ≠ "")
    (h5 : subject.length ≤ 40) (h6 : ¬tooManyImages image_urls) :
    (send_sms recipients message callback_number project_id (.raised e)).1
      = .err ("SMS 전송에 실패했습니다: " ++ e) "INTERNAL_ERROR"
    ∧ (send_mms recipients message subject callback_number project_id image_urls
        (.raised e)).1
      = .err ("MMS 전송에 실패했습니다: " ++ e) "INTERNAL_ERROR"
    ∧ get_message_status group_id (.raised e)
      = .err ("메시지 상태 조회에 실패했습니다: " ++ e) "INTERNAL_ERROR"
    ∧ ((send_sms recipients message callback_number project_id (.raised e)).1).success
      = false := by
  have h2' : ¬(recipients.isEmpty = true ∨ recipients.length > 1000) := by
    simp only [List.isEmpty_iff_length_eq_zero, not_or, not_lt]
    omega
  have h3' : ¬(message.length > 2000) := by omega
  have hsms : (send_sms recipients message callback_number project_id (.raised e)).1
      = .err ("SMS 전송에 실패했습니다: " ++ e) "INTERNAL_ERROR" := by
    unfold send_sms
    rw [if_neg h4, if_neg h2', if_neg h3']
  refine ⟨hsms, ?_, rfl, by rw [hsms]; rfl⟩
  · unfold send_mms
    rw [if_neg h4, if_neg h2', if_neg h3', if_neg (by omega : ¬subject.length > 40),
      if_neg h6]

/-- Witness for C6 at a concrete raised transport exception. -/
theorem tools_convert_faults_witness :
    (send_sms [⟨"010", "u"⟩] "m" "c" "p" (.raised "conn reset")).1
      = .err "SMS 전송에 실패했습니다: conn reset" "INTERNAL_ERROR"
    ∧ (send_mms [⟨"010", "u"⟩] "m" "s" "c" "p" none (.raised "conn reset")).1
      = .err "MMS 전송에 실패했습니다: conn reset" "INTERNAL_ERROR"
    ∧ get_message_status 5 (.raised "conn reset")
      = .err "메시지 상태 조회에 실패했습니다: conn reset" "INTERNAL_ERROR" := by
  have h := tools_convert_faults [⟨"010", "u"⟩] "m" "s" "c" "p" none 5 "conn reset"
    (by decide) (by decide) (by decide) (by decide) (by decide) (by simp [tooManyImages])
  exact ⟨h.1, h.2.1, h.2.2.1⟩

/-- C5 (amended): `get_send_history` never performs a network call, and for
every input with a non-empty project id it returns the stub success shape:
an empty history list, the limit clamped to at most 100, the offset clamped
to at least 0, and the message type defaulted to "ALL" when it is not one of
"SMS"/"MMS"/"ALL" (an empty project id instead returns the
`MISSING_PROJECT_ID` error shape, still with no network call). -/
theorem get_send_history_stub (project_id : String) (offset limit : Int)
    (message_type : String) (h : project_id ≠ "") :
    (∀ (pid : String) (off lim : Int) (mt : String),
      (get_send_history pid off lim mt).2 = 0)
    ∧ get_send_history project_id offset limit message_type
        = (.ok project_id 0 (max offset 0) (min limit 100)
            (if message_type ∈ ["SMS", "MMS", "ALL"] then message_type else "ALL") []
            "전송 기록 엔드포인트가 아직 API에 구현되지 않았습니다", 0)
    ∧ (get_send_history project_id offset 500 message_type).1.historyList = some []
    ∧ (get_send_history "" offset limit message_type).2 = 0 := by
  have hoff : (if offset < 0 then 0 else offset) = max offset 0 := by
    split_ifs <;> omega
  have hmain : ∀ lim : Int, get_send_history project_id offset lim message_type
      = (.ok project_id 0 (max offset 0) (min lim 100)
          (if message_type ∈ ["SMS", "MMS", "ALL"] then message_type else "ALL") []
          "전송 기록 엔드포인트가 아직 API에 구현되지 않았습니다", 0) := by
    intro lim
    have hlim : (if lim > 100 then 100 else lim) = min lim 100 := by
      split_ifs <;> omega
    unfold get_send_history
    rw [if_neg h, hoff, hlim]
  refine ⟨?_, hmain limit, ?_, ?_⟩
  · intro pid off lim mt
    unfold get_send_history
    split_ifs <;> rfl
  · rw [hmain 500]
    rfl
  · unfold get_send_history
    rw [if_pos rfl]

/-- Witness for C5's amended theorem: limit 500 is echoed as 100, offset -5
as 0, and message type "XYZ" as "ALL". -/
theorem get_send_history_stub_witness :
    get_send_history "proj" (-5) 500 "XYZ"
      = (.ok "proj" 0 0 100 "ALL" []
          "전송 기록 엔드포인트가 아직 API에 구현되지 않았습니다", 0) := by
  rw [(get_send_history_stub "proj" (-5) 500 "XYZ" (by decide)).2.1]
  decide

/-- Counterexample to C5 as stated: on the empty project id (an input), the
tool returns the `MISSING_PROJECT_ID` error shape, which carries no history
list at all, so "for every input … returns an empty history list" fails. -/
theorem get_send_history_empty_project_counterexample :
    (get_send_history "" 0 20 "ALL").1
      = .err "프로젝트 ID가 필요합니다" "MISSING_PROJECT_ID"
    ∧ (get_send_history "" 0 20 "ALL").1.historyList = none := by
  exact ⟨rfl, rfl⟩

/-- C7: `get_code_template_url` is pure URL construction (its embedding
takes no collaborator, reflecting that it never calls out): a language
outside the fixed supported set yields `UNSUPPORTED_LANGUAGE` together with
the supported-language list, and for "python"/"fastapi" the template URL
ends in `python/fastapi.md` while the installation guide URL references
`setup/python.md`. -/
theorem get_code_template_url_contract :
    (∀ (language : String) (framework platform : Option String),
      pyLower language ∉ supported_languages →
      get_code_template_url language framework platform
        = .err ("언어 '" ++ pyLower language ++ "'는 아직 지원되지 않습니다")
            supported_languages "UNSUPPORTED_LANGUAGE")
    ∧ (get_code_template_url "python" (some "fastapi") none).templateUrl
        = some "https://cdn.mbaas.kr/templates/sms-mms/python/fastapi.md"
    ∧ strEndsWith "https://cdn.mbaas.kr/templates/sms-mms/python/fastapi.md"
        "python/fastapi.md" = true
    ∧ (get_code_template_url "python" (some "fastapi") none).installationGuide
        = some "https://cdn.mbaas.kr/templates/sms-mms/setup/python.md"
    ∧ strEndsWith "https://cdn.mbaas.kr/templates/sms-mms/setup/python.md"
        "setup/python.md" = true := by
  refine ⟨?_, by decide, by decide, by decide, by decide⟩
  · intro language framework platform h
    simp only [get_code_template_url]
    rw [if_pos h]

/-- Witness for C7's unsupported-language branch at a concrete input. -/
theorem get_code_template_url_contract_witness :
    get_code_template_url "Rust" none (some "vercel")
      = .err "언어 'rust'는 아직 지원되지 않습니다" supported_languages
          "UNSUPPORTED_LANGUAGE" := by
  have h := get_code_template_url_contract.1 "Rust" none (some "vercel") (by decide)
  exact h

/-- Every output of `generate_python_code` contains the
`class BaaSMessageService` definition: the base template does, and the
framework/example blocks are only appended after it. -/
theorem generate_python_code_contains_class (fw : Option String) (ex : Bool) :
    ∃ a b, generate_python_code fw ex = a ++ "class BaaSMessageService" ++ b := by
  refine ⟨python_base_code_pre,
    python_base_code_post
      ++ (if fw = some "django" then python_django_addition
          else if fw = some "fastapi" then python_fastapi_addition
          else "")
      ++ (if ex then python_usage_examples else ""), ?_⟩
  simp only [generate_python_code, python_base_code, strAppendAssoc]

/-- Every output of `generate_javascript_code` contains the
`class BaaSMessageService` definition. -/
theorem generate_javascript_code_contains_class (fw : Option String) (ex : Bool) :
    ∃ a b, generate_javascript_code fw ex = a ++ "class BaaSMessageService" ++ b := by
  refine ⟨js_base_code_pre,
    js_base_code_post
      ++ (if fw = some "react" then js_react_addition
          else if fw = some "vue" then js_vue_addition
          else "")
      ++ (if ex then js_usage_examples else "")
      ++ js_export_suffix, ?_⟩
  simp only [generate_javascript_code, js_base_code, strAppendAssoc]

/-- Every output of `generate_php_code` contains the
`class BaaSMessageService` definition. -/
theorem generate_php_code_contains_class (fw : Option String) (ex : Bool) :
    ∃ a b, generate_php_code fw ex = a ++ "class BaaSMessageService" ++ b := by
  refine ⟨php_base_code_pre,
    php_base_code_post
      ++ (if fw = some "laravel" then php_laravel_addition else "")
      ++ (if ex then php_usage_examples else ""), ?_⟩
  simp only [generate_php_code, php_base_code, strAppendAssoc]

/-- Evaluation of `generate_direct_api_code` on a non-200 CDN response when
local generation supports the language. -/
theorem gen_non200_local (lang : String) (fw : Option String) (ex : Bool)
    (status : Nat) (text code : String) (hs : status ≠ 200)
    (hl : local_generation (pyLower lang) (optLower fw) ex = some code) :
    generate_direct_api_code lang fw ex (fun _ => .response status text)
      = .ok (pyLower lang) (optLower fw) code ("baas-sms-service." ++ extFor (pyLower lang))
          (pyTitle (pyLower lang) ++ " BaaS SMS service for direct API calls")
          "Local generation"
          ("https://cdn.baas-templates.com/sms-mms/"
            ++ (pyLower lang
              ++ (match optLower fw with | some f => "/" ++ f | none => "/vanilla"))
            ++ ".md")
          (pyTitle (pyLower lang) ++ " 코드가 성공적으로 생성되었습니다 (소스: " ++ "로컬" ++ ")") := by
  simp only [generate_direct_api_code]
  rw [if_neg hs, hl]
  rfl

/-- Evaluation of `generate_direct_api_code` on a raised CDN fetch when
local generation supports the language. -/
theorem gen_raised_local (lang : String) (fw : Option String) (ex : Bool)
    (e code : String)
    (hl : local_generation (pyLower lang) (optLower fw) ex = some code) :
    generate_direct_api_code lang fw ex (fun _ => .raised e)
      = .ok (pyLower lang) (optLower fw) code ("baas-sms-service." ++ extFor (pyLower lang))
          (pyTitle (pyLower lang) ++ " BaaS SMS service for direct API calls")
          "Local generation"
          ("https://cdn.baas-templates.com/sms-mms/"
            ++ (pyLower lang
              ++ (match optLower fw with | some f => "/" ++ f | none => "/vanilla"))
            ++ ".md")
          (pyTitle (pyLower lang) ++ " 코드가 성공적으로 생성되었습니다 (소스: " ++ "로컬" ++ ")") := by
  simp only [generate_direct_api_code]
  rw [hl]
  rfl

/-- Evaluation of `generate_direct_api_code` on a 200 CDN response whose text
holds no fenced block matching the language: the entire fetched text becomes
the code. -/
theorem gen_200_noblock (lang : String) (fw : Option String) (ex : Bool) (text : String)
    (hb : extractCodeBlock (pyLower lang) text = none) :
    generate_direct_api_code lang fw ex (fun _ => .response 200 text)
      = .ok (pyLower lang) (optLower fw) text ("baas-sms-service." ++ extFor (pyLower lang))
          (pyTitle (pyLower lang) ++ " BaaS SMS service for direct API calls")
          "CDN template"
          ("https://cdn.baas-templates.com/sms-mms/"
            ++ (pyLower lang
              ++ (match optLower fw with | some f => "/" ++ f | none => "/vanilla"))
            ++ ".md")
          (pyTitle (pyLower lang) ++ " 코드가 성공적으로 생성되었습니다 (소스: " ++ "CDN" ++ ")") := by
  simp only [generate_direct_api_code]
  rw [if_pos trivial, hb]
  rfl

/-- C8 (amended): when the CDN fetch fails — a non-200 status or a raised
fetch alike — each of the three locally supported languages falls back to the
statically embedded generator output (success with a `class
BaaSMessageService` definition in the code), while any other language returns
`TEMPLATE_UNAVAILABLE` with the supported-language list on a non-200 status,
and `GENERATION_FAILED` (without the list) on a raised fetch; on HTTP 200
with no fenced block matching a regex-literal language identifier the entire
fetched text (not the embedded string) becomes the code. -/
theorem generate_direct_api_code_fallback (framework : Option String)
    (include_examples : Bool) (status : Nat) (text e language : String) :
    (status ≠ 200 →
      (generate_direct_api_code "python" framework include_examples
          (fun _ => .response status text)).codeField
        = some (generate_python_code (optLower framework) include_examples)
      ∧ (generate_direct_api_code "javascript" framework include_examples
          (fun _ => .response status text)).codeField
        = some (generate_javascript_code (optLower framework) include_examples)
      ∧ (generate_direct_api_code "php" framework include_examples
          (fun _ => .response status text)).codeField
        = some (generate_php_code (optLower framework) include_examples)
      ∧ (generate_direct_api_code "python" framework include_examples
          (fun _ => .response status text)).success = true
      ∧ (generate_direct_api_code "python" framework include_examples
          (fun _ => .response status text)).sourceField = some "Local generation")
    ∧ ((generate_direct_api_code "python" framework include_examples
          (fun _ => .raised e)).codeField
        = some (generate_python_code (optLower framework) include_examples)
      ∧ (generate_direct_api_code "javascript" framework include_examples
          (fun _ => .raised e)).codeField
        = some (generate_javascript_code (optLower framework) include_examples)
      ∧ (generate_direct_api_code "php" framework include_examples
          (fun _ => .raised e)).codeField
        = some (generate_php_code (optLower framework) include_examples)
      ∧ (generate_direct_api_code "python" framework include_examples
          (fun _ => .raised e)).success = true)
    ∧ (∃ a b, generate_python_code (optLower framework) include_examples
        = a ++ "class BaaSMessageService" ++ b)
    ∧ (∃ a b, generate_javascript_code (optLower framework) include_examples
        = a ++ "class BaaSMessageService" ++ b)
    ∧ (∃ a b, generate_php_code (optLower framework) include_examples
        = a ++ "class BaaSMessageService" ++ b)
    ∧ (local_generation (pyLower language) (optLower framework) include_examples = none →
        (status ≠ 200 →
          generate_direct_api_code language framework include_examples
              (fun _ => .response status text)
            = .err ("CDN에서 템플릿을 가져올 수 없고, 언어 '" ++ pyLower language
                  ++ "'는 로컬 생성을 지원하지 않습니다")
                (some ["javascript", "python", "php"]) "TEMPLATE_UNAVAILABLE")
        ∧ generate_direct_api_code language framework include_examples (fun _ => .raised e)
            = .err ("CDN 오류 및 로컬 생성 불가: " ++ e) none "GENERATION_FAILED")
    ∧ (regexLiteralLang (pyLower language) = true →
        extractCodeBlock (pyLower language) text = none →
        (generate_direct_api_code language framework include_examples
            (fun _ => .response 200 text)).codeField = some text) := by
  refine ⟨?_, ?_, generate_python_code_contains_class _ _,
    generate_javascript_code_contains_class _ _, generate_php_code_contains_class _ _,
    ?_, ?_⟩
  · intro hs
    rw [gen_non200_local "python" framework include_examples status text _ hs rfl,
      gen_non200_local "javascript" framework include_examples status text _ hs rfl,
      gen_non200_local "php" framework include_examples status text _ hs rfl]
    exact ⟨rfl, rfl, rfl, rfl, rfl⟩
  · rw [gen_raised_local "python" framework include_examples e _ rfl,
      gen_raised_local "javascript" framework include_examples e _ rfl,
      gen_raised_local "php" framework include_examples e _ rfl]
    exact ⟨rfl, rfl, rfl, rfl⟩
  · intro hl
    constructor
    · intro hs
      simp only [generate_direct_api_code]
      rw [if_neg hs, hl]
    · simp only [generate_direct_api_code]
      rw [hl]
  · intro _ hb
    rw [gen_200_noblock language framework include_examples text hb]
    rfl

/-- Witness for C8's amended theorem: a 404 base fetch for "python" falls
back to the embedded Python generator, a raised fetch for "php" falls back to
the embedded PHP generator, "ruby" on a 404 yields `TEMPLATE_UNAVAILABLE`,
and a 200 fetch of plain text for "go" keeps the fetched text as the code. -/
theorem generate_direct_api_code_fallback_witness :
    (generate_direct_api_code "python" none true (fun _ => .response 404 "x")).codeField
      = some (generate_python_code none true)
    ∧ (generate_direct_api_code "php" none true (fun _ => .raised "boom")).codeField
      = some (generate_php_code none true)
    ∧ generate_direct_api_code "ruby" none true (fun _ => .response 404 "x")
      = .err "CDN에서 템플릿을 가져올 수 없고, 언어 'ruby'는 로컬 생성을 지원하지 않습니다"
          (some ["javascript", "python", "php"]) "TEMPLATE_UNAVAILABLE"
    ∧ (generate_direct_api_code "go" none true
        (fun _ => .response 200 "plain text")).codeField = some "plain text" := by
  have h := generate_direct_api_code_fallback none true 404 "x" "boom" "ruby"
  have h2 := generate_direct_api_code_fallback none true 404 "plain text" "boom" "go"
  exact ⟨(h.1 (by decide)).1, h.2.1.2.2.1, (h.2.2.2.2.2.1 (by decide)).1 (by decide),
    h2.2.2.2.2.2.2 (by decide) (by decide)⟩

/-- Counterexample to C8 as stated, at two concrete inputs.  First, an HTTP
200 fetch whose Markdown holds no fenced block matching "python" does not
fall back to the embedded generator — the entire fetched text becomes the
code.  Second, a raised fetch for the unsupported language "ruby" — a failed
CDN fetch — returns `GENERATION_FAILED` with no supported-language list,
not the `TEMPLATE_UNAVAILABLE`-with-list shape the claim asserts for every
failed fetch. -/
theorem generate_direct_api_code_no_fallback_counterexample :
    (generate_direct_api_code "python" none true
        (fun _ => .response 200 "no code blocks here")).codeField
      = some "no code blocks here"
    ∧ extractCodeBlock "python" "no code blocks here" = none
    ∧ (generate_direct_api_code "python" none true
        (fun _ => .response 200 "no code blocks here")).codeField
      ≠ some (generate_python_code none true)
    ∧ (generate_direct_api_code "python" none true
        (fun _ => .response 200 "no code blocks here")).sourceField
      = some "CDN template"
    ∧ generate_direct_api_code "ruby" none true (fun _ => .raised "boom")
      = .err "CDN 오류 및 로컬 생성 불가: boom" none "GENERATION_FAILED"
    ∧ ("GENERATION_FAILED" : String) ≠ "TEMPLATE_UNAVAILABLE" := by
  refine ⟨by decide, by decide, by decide, by decide, by decide, by decide⟩

/-- C9 (amended): `create_message_service_template` calls
`generate_direct_api_code` and, when that fails, returns the failure result
unchanged; when it succeeds, the returned code is the base code with every
occurrence of "your-project-id", "02-1234-5678" and "Your Company" literally
replaced by the `project_config` values (defaulting to the placeholders when
absent), with the `{{…}}`-substituted helpers appended only when the helpers
CDN fetch returns HTTP 200 — a non-200 fetch appends nothing, and a raised
fetch appends the locally generated JavaScript helpers exactly when the
language is "javascript". -/
theorem create_message_service_template_customization (project_config : ProjectConfig)
    (language : String) (features : Option (List String)) (cdn : String → CdnOutcome) :
    (∀ (er : String) (sup : Option (List String)) (ec : String),
      generate_direct_api_code language none true cdn = .err er sup ec →
      create_message_service_template project_config language features cdn = .err er sup ec)
    ∧ (∀ (l : String) (f : Option String) (baseCode fn d src u m t : String),
        generate_direct_api_code language none true cdn = .ok l f baseCode fn d src u m →
        cdn ("https://cdn.baas-templates.com/sms-mms/helpers/" ++ language ++ "-project.md")
          = .response 200 t →
        (create_message_service_template project_config language features cdn).codeField
          = some (customize_code baseCode
                (project_config.project_id.getD "your-project-id")
                (project_config.default_callback.getD "02-1234-5678")
                (project_config.company_name.getD "Your Company")
              ++ "\n\n"
              ++ substitute_helpers t
                (project_config.company_name.getD "Your Company")
                (project_config.project_id.getD "your-project-id")
                (project_config.default_callback.getD "02-1234-5678")))
    ∧ (∀ (l : String) (f : Option String) (baseCode fn d src u m : String)
        (status : Nat) (t : String), status ≠ 200 →
        generate_direct_api_code language none true cdn = .ok l f baseCode fn d src u m →
        cdn ("https://cdn.baas-templates.com/sms-mms/helpers/" ++ language ++ "-project.md")
          = .response status t →
        (create_message_service_template project_config language features cdn).codeField
          = some (customize_code baseCode
              (project_config.project_id.getD "your-project-id")
              (project_config.default_callback.getD "02-1234-5678")
              (project_config.company_name.getD "Your Company")))
    ∧ (∀ (l : String) (f : Option String) (baseCode fn d src u m ex : String),
        generate_direct_api_code language none true cdn = .ok l f baseCode fn d src u m →
        cdn ("https://cdn.baas-templates.com/sms-mms/helpers/" ++ language ++ "-project.md")
          = .raised ex →
        (create_message_service_template project_config language features cdn).codeField
          = some (if language = "javascript" then
                customize_code baseCode
                  (project_config.project_id.getD "your-project-id")
                  (project_config.default_callback.getD "02-1234-5678")
                  (project_config.company_name.getD "Your Company")
                ++ js_project_helpers
                  (project_config.company_name.getD "Your Company")
                  (project_config.project_id.getD "your-project-id")
                  (project_config.default_callback.getD "02-1234-5678")
              else
                customize_code baseCode
                  (project_config.project_id.getD "your-project-id")
                  (project_config.default_callback.getD "02-1234-5678")
                  (project_config.company_name.getD "Your Company"))) := by
  refine ⟨?_, ?_, ?_, ?_⟩
  · intro er sup ec hgen
    simp only [create_message_service_template]
    rw [hgen]
  · intro l f baseCode fn d src u m t hgen hcdn
    simp only [create_message_service_template]
    rw [hgen, hcdn]
    rfl
  · intro l f baseCode fn d src u m status t hs hgen hcdn
    simp only [create_message_service_template]
    rw [hgen, hcdn]
    simp [hs, CreateResult.codeField]
  · intro l f baseCode fn d src u m ex hgen hcdn
    simp only [create_message_service_template]
    rw [hgen, hcdn]
    rfl

/-- Witness for C9's amended theorem: base fetch 200 with no fenced block,
helpers fetch 200; the placeholder is replaced and the substituted helpers
are appended after a blank line. -/
theorem create_message_service_template_customization_witness :
    (create_message_service_template ⟨some "PID", some "CB", some "Acme"⟩ "python" none
        (fun u =>
          if u = "https://cdn.baas-templates.com/sms-mms/helpers/python-project.md" then
            .response 200 "Hello \x7b\x7bcompany_name\x7d\x7d!"
          else .response 200 "base your-project-id end")).codeField
      = some "base PID end\n\nHello Acme!" := by
  rw [(create_message_service_template_customization ⟨some "PID", some "CB", some "Acme"⟩
      "python" none
      (fun u =>
        if u = "https://cdn.baas-templates.com/sms-mms/helpers/python-project.md" then
          .response 200 "Hello \x7b\x7bcompany_name\x7d\x7d!"
        else .response 200 "base your-project-id end")).2.1
    "python" none "base your-project-id end" "baas-sms-service.py"
    "Python BaaS SMS service for direct API calls" "CDN template"
    "https://cdn.baas-templates.com/sms-mms/python/vanilla.md"
    "Python 코드가 성공적으로 생성되었습니다 (소스: CDN)"
    "Hello \x7b\x7bcompany_name\x7d\x7d!" (by decide) (by decide)]
  decide

/-- Counterexample to C9 as stated: with a non-200 helpers fetch the returned
code is exactly the three-fold replacement of the base code — no helper code
of any kind is appended (neither CDN-substituted helpers nor, although the
language is "javascript", the locally generated project helpers). -/
theorem create_message_service_template_no_helpers_counterexample :
    (create_message_service_template ⟨some "PID", some "CB", some "Acme"⟩ "javascript" none
        (fun u =>
          if u = "https://cdn.baas-templates.com/sms-mms/helpers/javascript-project.md" then
            .response 404 ""
          else .response 200 "ID: your-project-id")).codeField
      = some "ID: PID"
    ∧ "ID: PID" = customize_code "ID: your-project-id" "PID" "CB" "Acme"
    ∧ (some "ID: PID" : Option String)
      ≠ some (customize_code "ID: your-project-id" "PID" "CB" "Acme"
          ++ js_project_helpers "Acme" "PID" "CB")
    ∧ (∀ t : String, (some "ID: PID" : Option String)
      ≠ some (customize_code "ID: your-project-id" "PID" "CB" "Acme" ++ "\n\n"
          ++ substitute_helpers t "Acme" "PID" "CB")) := by
  refine ⟨by decide, by decide, by decide, ?_⟩
  intro t h
  have ha : "ID: PID" = customize_code "ID: your-project-id" "PID" "CB" "Acme" ++ "\n\n"
      ++ substitute_helpers t "Acme" "PID" "CB" := by
    injection h
  have hlen := congrArg String.length ha
  rw [String.length_append, String.length_append] at hlen
  have h1 : ("ID: PID" : String).length = 7 := rfl
  have h3 : (customize_code "ID: your-project-id" "PID" "CB" "Acme").length = 7 := rfl
  have h4 : ("\n\n" : String).length = 2 := rfl
  omega
